import Mathlib

/- Verification development for the live-route scrapper core
   (backend/script/liveRouteScrapper.ts).

   Shallow embedding conventions:
   * a JavaScript string is modelled as its list of Unicode code points
     (`Str := List Nat`); ASCII case mapping models toLowerCase/toUpperCase;
   * the JavaScript numbers produced by this core are exact rationals; all
     rational values are built through `mkRat` so that every definition is
     kernel-computable (the bridge lemmas `jsAdd_eq` and `mkRat_eq_div`
     relate them to the ordinary field operations on `Rat`);
   * a JavaScript `Map` is modelled as an insertion-ordered association
     list (`List (Str × α)`) with first-match lookup, in-place overwrite
     on `set` of an existing key, and append on `set` of a new key;
   * `undefined`/`null` become `Option`. -/

abbrev Str := List Nat

def strLit (s : String) : Str := s.data.map Char.toNat

/-- Code points matched by the JavaScript regexp class \s
    (WhiteSpace and LineTerminator productions). -/
def isWsCode (c : Nat) : Bool :=
  c == 9 || c == 10 || c == 11 || c == 12 || c == 13 || c == 32 || c == 160 ||
  c == 5760 || (decide (8192 ≤ c) && decide (c ≤ 8202)) || c == 8232 ||
  c == 8233 || c == 8239 || c == 8287 || c == 12288 || c == 65279

def isDigitCode (c : Nat) : Bool := decide (48 ≤ c) && decide (c ≤ 57)

/-- ASCII model of String.prototype.toLowerCase, per code point. -/
def toLowerCode (c : Nat) : Nat := if 65 ≤ c ∧ c ≤ 90 then c + 32 else c

/-- ASCII model of String.prototype.toUpperCase, per code point. -/
def toUpperCode (c : Nat) : Nat := if 97 ≤ c ∧ c ≤ 122 then c - 32 else c

def jsToLowerCase (s : Str) : Str := s.map toLowerCode

def jsToUpperCase (s : Str) : Str := s.map toUpperCode

/-- String.prototype.trim (strip leading and trailing whitespace). -/
def trimStr (s : Str) : Str :=
  ((s.dropWhile isWsCode).reverse.dropWhile isWsCode).reverse

/-- JS String.prototype.split with a one-character separator:
    "".split(c) = [""], and every separator occurrence cuts. -/
def splitOnC (sep : Nat) (s : Str) : List Str :=
  s.foldr
    (fun c acc =>
      if c = sep then [] :: acc
      else
        match acc with
        | [] => [[c]]
        | p :: ps => (c :: p) :: ps)
    [[]]

/-- JS String.prototype.split on the regexp /\s+/ (maximal whitespace runs cut). -/
def splitWsRuns : Str → List Str
  | [] => [[]]
  | c :: rest =>
    if isWsCode c then
      match rest with
      | [] => [[], []]
      | d :: _ => if isWsCode d then splitWsRuns rest else [] :: splitWsRuns rest
    else
      match splitWsRuns rest with
      | [] => [[c]]
      | p :: ps => (c :: p) :: ps

/-- JS truthiness of an optional string: undefined and "" are falsy. -/
def jsTruthy : Option Str → Bool
  | none => false
  | some s => decide (s ≠ [])

def strStartsWith : Str → Str → Bool
  | _, [] => true
  | [], _ :: _ => false
  | a :: ra, b :: rb => a == b && strStartsWith ra rb

/-- JS String.prototype.includes: contiguous-substring test. -/
def strIncludes : Str → Str → Bool
  | [], needle => strStartsWith [] needle
  | c :: t, needle => strStartsWith (c :: t) needle || strIncludes t needle

def strEndsWith (s pat : Str) : Bool := strStartsWith s.reverse pat.reverse

def natFromDigitCodes (l : List Nat) : Nat := l.foldl (fun a c => 10 * a + (c - 48)) 0

def parseDigitsJS (s : Str) : Option Nat :=
  let d := s.takeWhile isDigitCode
  if d = [] then none else some (natFromDigitCodes d)

/-- JS parseInt(s, 10): skip leading whitespace, optional sign, read leading
    digits (trailing garbage ignored), NaN (`none`) when no digit is found. -/
def parseIntJS (s : Str) : Option Int :=
  match s.dropWhile isWsCode with
  | [] => none
  | c :: rest =>
    if c = 43 then (parseDigitsJS rest).map (fun n => (n : Int))
    else if c = 45 then (parseDigitsJS rest).map (fun n => -(n : Int))
    else (parseDigitsJS (c :: rest)).map (fun n => (n : Int))

def intToRat (n : Int) : Rat := mkRat n 1

/-- Kernel-computable rational addition (proved equal to `Rat` addition below). -/
def jsAdd (a b : Rat) : Rat :=
  mkRat (a.num * (b.den : Int) + b.num * (a.den : Int)) (a.den * b.den)

/-- parseDelayToHours (source lines 449-455): "HH:MM:SS" → hours. -/
def parseDelayToHours (delay : Str) : Rat :=
  if delay = [] then 0
  else
    let parts := (splitOnC 58 delay).map parseIntJS
    if parts.length < 2 ∨ parts.any (fun p => p.isNone) then 0
    else
      let hh := (parts.getD 0 none).getD 0
      let mm := (parts.getD 1 none).getD 0
      let ss := (parts.getD 2 none).getD 0
      jsAdd (jsAdd (intToRat hh) (mkRat mm 60)) (mkRat ss 3600)

/-- The string of a list of decimal digits (code point 48 + digit). -/
def digitStr (ds : List Nat) : Str := ds.map (fun d => 48 + d)

/-- The numeric value of a list of decimal digits. -/
def digitVal (ds : List Nat) : Nat := ds.foldl (fun a d => 10 * a + d) 0

/-- pickEtaForDestination (source lines 459-468): last non-NA `;`-token. -/
def pickEtaForDestination (eta : Str) : Str :=
  if eta = [] then []
  else
    let parts :=
      ((splitOnC 59 eta).map trimStr).filter
        (fun p => decide (p ≠ []) && decide (jsToUpperCase p ≠ strLit ("NA")))
    if parts = [] then [] else parts.getLastD []

/-- normalizeSimple (source lines 78-82): lowercase, strip all whitespace. -/
def normalizeSimple (name : Str) : Str :=
  (jsToLowerCase name).filter (fun c => !isWsCode c)

/-- makeRouteKey (source lines 168-172). -/
def makeRouteKey (source destination : Str) : Str :=
  normalizeSimple source ++ [95, 95, 95] ++ normalizeSimple destination

/-- normalizeLocationKey (source lines 34-41): uppercase, then strip
    whitespace, hyphens, periods, underscores. -/
def normalizeLocationKey (s : Str) : Str :=
  ((((jsToUpperCase s).filter (fun c => !isWsCode c)).filter
      (fun c => !(c == 45))).filter
      (fun c => !(c == 46))).filter
      (fun c => !(c == 95))

/-- Fuelled scanner for /\(([^)]+)\)/g; each step consumes at least one
    character, so fuel = length of the string suffices. The fuel argument
    keeps the recursion structural (and hence kernel-computable). -/
def parenGroupsF : Nat → Str → List Str
  | 0, _ => []
  | _, [] => []
  | fuel + 1, c :: rest =>
    if c = 40 then
      let inside := rest.takeWhile (fun x => !(x == 41))
      match rest.drop inside.length with
      | 41 :: tail =>
        if inside = [] then parenGroupsF fuel rest else inside :: parenGroupsF fuel tail
      | _ => parenGroupsF fuel rest
    else parenGroupsF fuel rest

/-- All non-overlapping matches of the regexp /\(([^)]+)\)/g, captured group
    contents in order. -/
def parenGroups (s : Str) : List Str := parenGroupsF s.length s

/-- extractCodeInParensTS (source lines 84-90): content of the last (...)
    group, parens stripped, trimmed; "" when there is no group. -/
def extractCodeInParensTS (name : Str) : Str :=
  match (parenGroups name).getLast? with
  | none => []
  | some last => trimStr (last.filter (fun c => !(c == 40) && !(c == 41)))

/-- extractSourceFromConsigner (source lines 130-134). -/
def extractSourceFromConsigner (consignerName : Str) : Str :=
  if consignerName = [] then []
  else trimStr ((splitOnC 59 consignerName).headD [])

/-- extractDestinationFromConsignee (source lines 137-141). -/
def extractDestinationFromConsignee (consigneeName : Str) : Str :=
  if consigneeName = [] then []
  else trimStr ((splitOnC 59 consigneeName).getLastD [])

/-- extractCityFromConsignerName (source lines 146-150). -/
def extractCityFromConsignerName (consignerName : Str) : Str :=
  trimStr ((splitOnC 45 (extractSourceFromConsigner consignerName)).headD [])

/-- extractCityFromConsigneeName (source lines 153-158). -/
def extractCityFromConsigneeName (consigneeName : Str) : Str :=
  let lastPart := extractDestinationFromConsignee consigneeName
  let beforeParen := trimStr ((splitOnC 40 lastPart).headD [])
  (splitWsRuns beforeParen).getLastD []

/-- extractBranchCodeFromConsignee (source lines 161-164). -/
def extractBranchCodeFromConsignee (consigneeName : Str) : Str :=
  extractCodeInParensTS (extractDestinationFromConsignee consigneeName)

inductive RouteSideTag
  | up
  | down
deriving DecidableEq

structure ParsedRow where
  vehicleNumber : Str
  lastLocationDate : Str
  vehicleGroup : Str
  lastLocation : Str
  speedKmph : Str
  consignerName : Str
  consigneeName : Str
  dispatchDate : Str
  eta : Str
  plannedDistance : Str
  remainingDistance : Str
  tripStatus : Str
  delayTime : Str
  rpsNumber : Str
deriving DecidableEq

structure RouteIndexItem where
  id : Str
  RouteName : Str
  Route_Side : Option RouteSideTag
  Source : Option Str
  Destination : Option Str
  Middle_Stops : Option (List Str)
deriving DecidableEq

structure LiveMergedRow where
  vehicleNumber : Str
  lastLocationDate : Str
  vehicleGroup : Str
  lastLocation : Str
  speedKmph : Str
  consignerName : Str
  consigneeName : Str
  dispatchDate : Str
  eta : Str
  plannedDistance : Str
  remainingDistance : Str
  tripStatus : Str
  delayTime : Str
  rpsNumber : Str
  routeId : Option Str
  routeName : Option Str
  routeSource : Option Str
  routeDestination : Option Str
  routeSourceLat : Option Rat
  routeSourceLng : Option Rat
  routeDestinationLat : Option Rat
  routeDestinationLng : Option Rat
  routeSide : Option RouteSideTag
  routeMiddleStops : Option (List Str)
  sourceExtracted : Str
  destinationExtracted : Str
  matchKey : Str
deriving DecidableEq

structure LiveRouteVehicleEntry where
  vehicleNumber : Str
  rpsNumber : Option Str
  dispatchDate : Str
  lastLocationDate : Str
  lastLocation : Str
  lateHours : Rat
  middleStops : List Str
  expectedArrival : Str
  lat : Option Rat
  lng : Option Rat
deriving DecidableEq

structure LiveRouteSideBucket where
  totalVehicles : Nat
  lateVehicles : Nat
  vehicles : List LiveRouteVehicleEntry
deriving DecidableEq

structure LiveRouteRoute where
  id : Str
  source : Str
  destination : Str
  sourceLat : Option Rat
  sourceLng : Option Rat
  destLat : Option Rat
  destLng : Option Rat
  up : LiveRouteSideBucket
  down : LiveRouteSideBucket
deriving DecidableEq

structure UnmatchedRoutePair where
  consignerName : Str
  consigneeName : Str
  sourceExtracted : Str
  destinationExtracted : Str
  matchKey : Str
deriving DecidableEq

structure LocationEntry where
  rawName : Str
  lat : Rat
  lng : Rat
deriving DecidableEq

structure LocationMaps where
  cityByNormName : List (Str × LocationEntry)
  landmarkByNormCode : List (Str × LocationEntry)
  landmarkByNormName : List (Str × LocationEntry)
deriving DecidableEq

structure LocationRow where
  name : Str
  Latitude : Rat
  Longitude : Rat
deriving DecidableEq

def lookupAssoc {α : Type} (m : List (Str × α)) (k : Str) : Option α :=
  (m.find? (fun p => decide (p.1 = k))).map (fun p => p.2)

def setAssoc {α : Type} (m : List (Str × α)) (k : Str) (v : α) : List (Str × α) :=
  m.map (fun p => if p.1 = k then (k, v) else p)

/-- JS Map.set: overwrite in place, or append a new key at the end. -/
def mapSet {α : Type} (m : List (Str × α)) (k : Str) (v : α) : List (Str × α) :=
  if (lookupAssoc m k).isSome then setAssoc m k v else m ++ [(k, v)]

/-- buildRouteIndex (source lines 263-288), with the route rows supplied as
    an argument instead of fetched from the database. -/
def buildRouteIndex (routes : List RouteIndexItem) : List (Str × RouteIndexItem) :=
  routes.foldl
    (fun m r =>
      match r.Source, r.Destination with
      | some s, some d => if s = [] ∨ d = [] then m else mapSet m (makeRouteKey s d) r
      | _, _ => m)
    []

/-- The body of mergeWithRoutes' map (source lines 295-325). -/
def mergeRow (routeIndex : List (Str × RouteIndexItem)) (rec : ParsedRow) : LiveMergedRow :=
  let rawSource := extractSourceFromConsigner rec.consignerName
  let rawDestination := extractDestinationFromConsignee rec.consigneeName
  let key := makeRouteKey rawSource rawDestination
  let route := lookupAssoc routeIndex key
  { vehicleNumber := rec.vehicleNumber
    lastLocationDate := rec.lastLocationDate
    vehicleGroup := rec.vehicleGroup
    lastLocation := rec.lastLocation
    speedKmph := rec.speedKmph
    consignerName := rec.consignerName
    consigneeName := rec.consigneeName
    dispatchDate := rec.dispatchDate
    eta := rec.eta
    plannedDistance := rec.plannedDistance
    remainingDistance := rec.remainingDistance
    tripStatus := rec.tripStatus
    delayTime := rec.delayTime
    rpsNumber := rec.rpsNumber
    routeId := route.map (fun r => r.id)
    routeName := route.map (fun r => r.RouteName)
    routeSource := route.bind (fun r => r.Source)
    routeDestination := route.bind (fun r => r.Destination)
    routeSourceLat := none
    routeSourceLng := none
    routeDestinationLat := none
    routeDestinationLng := none
    routeSide := route.bind (fun r => r.Route_Side)
    routeMiddleStops := route.bind (fun r => r.Middle_Stops)
    sourceExtracted := rawSource
    destinationExtracted := rawDestination
    matchKey := key }

/-- mergeWithRoutes (source lines 291-326). -/
def mergeWithRoutes (rows : List ParsedRow) (routeIndex : List (Str × RouteIndexItem)) :
    List LiveMergedRow :=
  rows.map (mergeRow routeIndex)

def toUnmatchedPair (row : LiveMergedRow) : UnmatchedRoutePair :=
  { consignerName := row.consignerName
    consigneeName := row.consigneeName
    sourceExtracted := row.sourceExtracted
    destinationExtracted := row.destinationExtracted
    matchKey := row.matchKey }

/-- The dedup key matchKey + "|" + consignerName + "|" + consigneeName. -/
def rowCompoundKey (row : LiveMergedRow) : Str :=
  row.matchKey ++ 124 :: (row.consignerName ++ 124 :: row.consigneeName)

def pairCompoundKey (p : UnmatchedRoutePair) : Str :=
  p.matchKey ++ 124 :: (p.consignerName ++ 124 :: p.consigneeName)

/-- The loop of collectUnmatched (source lines 329-356), `seen` threaded
    explicitly. -/
def collectUnmatchedGo (seen : List Str) : List LiveMergedRow → List UnmatchedRoutePair
  | [] => []
  | row :: rest =>
    if jsTruthy row.routeId then collectUnmatchedGo seen rest
    else if rowCompoundKey row ∈ seen then collectUnmatchedGo seen rest
    else toUnmatchedPair row :: collectUnmatchedGo (rowCompoundKey row :: seen) rest

/-- collectUnmatched (source lines 329-356). -/
def collectUnmatched (merged : List LiveMergedRow) : List UnmatchedRoutePair :=
  collectUnmatchedGo [] merged

def emptySideBucket : LiveRouteSideBucket :=
  { totalVehicles := 0, lateVehicles := 0, vehicles := [] }

/-- The fresh per-route accumulator created on first encounter of a route id
    (source lines 485-496). -/
def freshRoute (row : LiveMergedRow) (rid rsrc rdst : Str) : LiveRouteRoute :=
  { id := rid
    source := rsrc
    destination := rdst
    sourceLat := row.routeSourceLat
    sourceLng := row.routeSourceLng
    destLat := row.routeDestinationLat
    destLng := row.routeDestinationLng
    up := emptySideBucket
    down := emptySideBucket }

/-- The VehicleEntry built for one row (source lines 499-518). -/
def mkVehicleEntry (coordsByVehicle : List (Str × (Option Rat × Option Rat)))
    (row : LiveMergedRow) (lateHours : Rat) : LiveRouteVehicleEntry :=
  let coord := lookupAssoc coordsByVehicle (trimStr row.vehicleNumber)
  { vehicleNumber := row.vehicleNumber
    rpsNumber := if row.rpsNumber = [] then none else some row.rpsNumber
    dispatchDate := row.dispatchDate
    lastLocationDate := row.lastLocationDate
    lastLocation := row.lastLocation
    lateHours := lateHours
    middleStops := row.routeMiddleStops.getD []
    expectedArrival := pickEtaForDestination row.eta
    lat := coord.bind (fun p => p.1)
    lng := coord.bind (fun p => p.2) }

/-- Push a VehicleEntry into a side bucket and bump the counters
    (source lines 541-545). -/
def pushEntry (sb : LiveRouteSideBucket) (entry : LiveRouteVehicleEntry) (lh : Rat) :
    LiveRouteSideBucket :=
  { totalVehicles := sb.totalVehicles + 1
    lateVehicles := sb.lateVehicles + (if 0 < lh then 1 else 0)
    vehicles := sb.vehicles ++ [entry] }

def pushSideEntry (side : RouteSideTag) (b : LiveRouteRoute)
    (entry : LiveRouteVehicleEntry) (lh : Rat) : LiveRouteRoute :=
  match side with
  | RouteSideTag.up => { b with up := pushEntry b.up entry lh }
  | RouteSideTag.down => { b with down := pushEntry b.down entry lh }

/-- Source half of the bucket-level coordinate backfill (source lines 548-551). -/
def backfillSrc (b : LiveRouteRoute) (row : LiveMergedRow) : LiveRouteRoute :=
  if b.sourceLat = none ∧ row.routeSourceLat ≠ none then
    { b with sourceLat := row.routeSourceLat, sourceLng := row.routeSourceLng }
  else b

/-- Destination half of the bucket-level coordinate backfill (source lines 552-555). -/
def backfillDst (b : LiveRouteRoute) (row : LiveMergedRow) : LiveRouteRoute :=
  if b.destLat = none ∧ row.routeDestinationLat ≠ none then
    { b with destLat := row.routeDestinationLat, destLng := row.routeDestinationLng }
  else b

/-- Opportunistic bucket-level coordinate backfill (source lines 548-555). -/
def backfillRouteCoords (b : LiveRouteRoute) (row : LiveMergedRow) : LiveRouteRoute :=
  backfillDst (backfillSrc b row) row

/-- The truthiness guard of the aggregation loop (source line 478). -/
def matchedGuardB (row : LiveMergedRow) : Bool :=
  jsTruthy row.routeId && jsTruthy row.routeSource && jsTruthy row.routeDestination

/-- One iteration of the aggregation loop of aggregateLiveRoutes
    (source lines 477-556) over the insertion-ordered route map. -/
def stepAgg (coordsByVehicle : List (Str × (Option Rat × Option Rat)))
    (m : List (Str × LiveRouteRoute)) (row : LiveMergedRow) :
    List (Str × LiveRouteRoute) :=
  if matchedGuardB row = false then m
  else
    let rid := row.routeId.getD []
    let existing := lookupAssoc m rid
    let bucket0 :=
      match existing with
      | some b => b
      | none => freshRoute row rid (row.routeSource.getD []) (row.routeDestination.getD [])
    let m1 :=
      match existing with
      | some _ => m
      | none => m ++ [(rid, bucket0)]
    let lh := parseDelayToHours row.delayTime
    let entry := mkVehicleEntry coordsByVehicle row lh
    match row.routeSide with
    | none => m1
    | some side => setAssoc m1 rid (backfillRouteCoords (pushSideEntry side bucket0 entry lh) row)

/-- aggregateLiveRoutes (source lines 471-559). -/
def aggregateLiveRoutes (merged : List LiveMergedRow)
    (coordsByVehicle : List (Str × (Option Rat × Option Rat))) : List LiveRouteRoute :=
  (merged.foldl (stepAgg coordsByVehicle) []).map (fun p => p.2)

/-- The (up, down) bucket pair published for a given route id; both empty when
    the id is absent. -/
def bucketsForId (routes : List LiveRouteRoute) (k : Str) :
    LiveRouteSideBucket × LiveRouteSideBucket :=
  match routes.find? (fun r => decide (r.id = k)) with
  | some r => (r.up, r.down)
  | none => (emptySideBucket, emptySideBucket)

/-- The same bucket-pair projection on the aggregation accumulator. -/
def projBuckets (m : List (Str × LiveRouteRoute)) (k : Str) :
    LiveRouteSideBucket × LiveRouteSideBucket :=
  match lookupAssoc m k with
  | some r => (r.up, r.down)
  | none => (emptySideBucket, emptySideBucket)

/-- FMS-derived source coordinate of one row (source lines 951-965):
    consigner city name, city list first, landmark-by-name second. -/
def fmsSourceCoord (loc : LocationMaps) (row : LiveMergedRow) : Option (Rat × Rat) :=
  let srcCityRaw := extractCityFromConsignerName row.consignerName
  if srcCityRaw = [] then none
  else
    let key := normalizeLocationKey srcCityRaw
    match lookupAssoc loc.cityByNormName key with
    | some cityEntry => some (cityEntry.lat, cityEntry.lng)
    | none => (lookupAssoc loc.landmarkByNormName key).map (fun e => (e.lat, e.lng))

/-- FMS-derived destination coordinate of one row (source lines 968-994):
    landmark by branch code first, then city/landmark by consignee city. -/
def fmsDestCoord (loc : LocationMaps) (row : LiveMergedRow) : Option (Rat × Rat) :=
  let destBranchCode := extractBranchCodeFromConsignee row.consigneeName
  let byCode :=
    if destBranchCode = [] then none
    else lookupAssoc loc.landmarkByNormCode (normalizeLocationKey destBranchCode)
  match byCode with
  | some lm => some (lm.lat, lm.lng)
  | none =>
    let destCityRaw := extractCityFromConsigneeName row.consigneeName
    if destCityRaw = [] then none
    else
      let cityKey := normalizeLocationKey destCityRaw
      match lookupAssoc loc.cityByNormName cityKey with
      | some cityEntry => some (cityEntry.lat, cityEntry.lng)
      | none => (lookupAssoc loc.landmarkByNormName cityKey).map (fun e => (e.lat, e.lng))

/-- Per-row body of attachLocationCoordsFromFms (source lines 940-1024):
    final = FMS value if available, else the row's stored value, else null. -/
def attachRowCoords (loc : LocationMaps) (row : LiveMergedRow) : LiveMergedRow :=
  let fmsSrc := fmsSourceCoord loc row
  let fmsDest := fmsDestCoord loc row
  { row with
    routeSourceLat := (fmsSrc.map (fun p => p.1)).or row.routeSourceLat
    routeSourceLng := (fmsSrc.map (fun p => p.2)).or row.routeSourceLng
    routeDestinationLat := (fmsDest.map (fun p => p.1)).or row.routeDestinationLat
    routeDestinationLng := (fmsDest.map (fun p => p.2)).or row.routeDestinationLng }

/-- attachLocationCoordsFromFms (source lines 936-1025); the in-place row
    mutation becomes a map producing the updated rows. -/
def attachLocationCoordsFromFms (merged : List LiveMergedRow) (loc : LocationMaps) :
    List LiveMergedRow :=
  merged.map (attachRowCoords loc)

/-- Fuelled scanner for the regexp replace .replace(/\s*\(/g, " (") of
    normalizeBaseName; fuel = length of the string suffices. -/
def spaceBeforeParensF : Nat → Str → Str
  | 0, _ => []
  | _, [] => []
  | fuel + 1, c :: rest =>
    if c = 40 then 32 :: 40 :: spaceBeforeParensF fuel rest
    else if isWsCode c then
      let run := rest.takeWhile isWsCode
      match rest.drop run.length with
      | 40 :: tail => 32 :: 40 :: spaceBeforeParensF fuel tail
      | _ => (c :: run) ++ spaceBeforeParensF fuel (rest.drop run.length)
    else c :: spaceBeforeParensF fuel rest

/-- The regexp replace .replace(/\s*\(/g, " (") of normalizeBaseName. -/
def spaceBeforeParens (s : Str) : Str := spaceBeforeParensF s.length s

/-- The regexp replace .replace(/\s+/g, " ") (collapse whitespace runs),
    written with a previous-was-whitespace flag for structural recursion. -/
def collapseWsAux (prevWs : Bool) : Str → Str
  | [] => []
  | c :: rest =>
    if isWsCode c then
      if prevWs then collapseWsAux true rest else 32 :: collapseWsAux true rest
    else c :: collapseWsAux false rest

def collapseWsRuns (s : Str) : Str := collapseWsAux false s

/-- Characterwise model of .replace(/[^a-z0-9()\s]+/g, " "): replacing each
    disallowed run by one space and replacing each disallowed character by a
    space agree after the subsequent /\s+/ collapse. -/
def keepBaseNameChars (s : Str) : Str :=
  s.map
    (fun c =>
      if (97 ≤ c ∧ c ≤ 122) ∨ (48 ≤ c ∧ c ≤ 57) ∨ c = 40 ∨ c = 41 ∨ isWsCode c = true
      then c else 32)

/-- normalizeBaseName (source lines 1037-1044). -/
def normalizeBaseName (s : Str) : Str :=
  trimStr (collapseWsRuns (keepBaseNameChars (spaceBeforeParens (jsToLowerCase s))))

/-- extractCodeLower (source lines 1047-1053). -/
def extractCodeLower (name : Str) : Str :=
  let str := normalizeBaseName name
  match (parenGroups str).getLast? with
  | none => []
  | some last => jsToLowerCase (trimStr (last.filter (fun c => !(c == 40) && !(c == 41))))

/-- Fuelled scanner for the regexp replace .replace(/\([^)]*\)/g, " ")
    (drop parenthesized content); fuel = length of the string suffices. -/
def stripParenGroupsSpF : Nat → Str → Str
  | 0, _ => []
  | _, [] => []
  | fuel + 1, c :: rest =>
    if c = 40 then
      let inside := rest.takeWhile (fun x => !(x == 41))
      match rest.drop inside.length with
      | 41 :: tail => 32 :: stripParenGroupsSpF fuel tail
      | _ => c :: stripParenGroupsSpF fuel rest
    else c :: stripParenGroupsSpF fuel rest

/-- The regexp replace .replace(/\([^)]*\)/g, " ") (drop parenthesized content). -/
def stripParenGroupsSp (s : Str) : Str := stripParenGroupsSpF s.length s

/-- tokenizeNameWithoutCode (source lines 1056-1067). -/
def tokenizeNameWithoutCode (name : Str) : List Str :=
  let norm := stripParenGroupsSp (normalizeBaseName name)
  let tokens := (splitWsRuns norm).filter (fun t => decide (t ≠ []))
  tokens.filter
    (fun t =>
      !(decide (t = strLit ("at")) || decide (t = strLit ("hub")) ||
        decide (t = strLit ("the")) || decide (t = strLit ("pvt")) ||
        decide (t = strLit ("ltd"))))

/-- jaccardSimilarity (source lines 1070-1082); the JS Sets only matter
    through their cardinalities and membership. -/
def jaccardSimilarity (tokensA tokensB : List Str) : Rat :=
  let setA := tokensA.dedup
  let setB := tokensB.dedup
  let common := setA.countP (fun t => decide (t ∈ setB))
  let unionSize := setA.length + setB.length - common
  if unionSize = 0 then 0 else mkRat common unionSize

structure LocationMatchScore where
  score : Rat
  byCode : Bool
deriving DecidableEq

/-- computeLocationMatchScore (source lines 1084-1101). -/
def computeLocationMatchScore (endpointName candidateName : Str) : LocationMatchScore :=
  let code1 := extractCodeLower endpointName
  let code2 := extractCodeLower candidateName
  if code1 ≠ [] ∧ code2 ≠ [] ∧ code1 = code2 then { score := 1, byCode := true }
  else
    { score :=
        jaccardSimilarity (tokenizeNameWithoutCode endpointName)
          (tokenizeNameWithoutCode candidateName)
      byCode := false }

def dropLeadingSafexpress (s : Str) : Str :=
  if strStartsWith s (strLit ("safexpress ")) then s.drop 11 else s

def dropDirSuffixTok (s : Str) : Str :=
  if strEndsWith s (strLit (" hub")) then s.take (s.length - 4)
  else if strEndsWith s (strLit (" sds")) then s.take (s.length - 4)
  else if strEndsWith s (strLit (" inbound")) then s.take (s.length - 8)
  else if strEndsWith s (strLit (" outbound")) then s.take (s.length - 9)
  else s

/-- buildEndpointCoreKey (source lines 1108-1136). The prefix/suffix regexps
    /^safexpress\s+/ and /\s+(hub|sds|inbound|outbound)\s*$/ act on an
    already collapsed, trimmed string, where they reduce to the
    one-space-separated forms used here. -/
def buildEndpointCoreKey (name : Str) : Str :=
  let s1 := jsToLowerCase name
  let s2 := stripParenGroupsSp s1
  let s3 := s2.map (fun c => if c = 45 then 32 else c)
  let s4 :=
    s3.map
      (fun c => if (97 ≤ c ∧ c ≤ 122) ∨ (48 ≤ c ∧ c ≤ 57) ∨ isWsCode c = true then c else 32)
  let s5 := trimStr (collapseWsRuns s4)
  let s6 := dropLeadingSafexpress s5
  let s7 := dropDirSuffixTok s6
  let s8 := trimStr (collapseWsRuns s7)
  s8.filter (fun c => !isWsCode c)

/-- buildLocationCoreKey (source lines 1139-1155). -/
def buildLocationCoreKey (name : Str) : Str :=
  let s1 := jsToLowerCase name
  let s2 := stripParenGroupsSp s1
  let s3 := s2.map (fun c => if c = 45 then 32 else c)
  let s4 :=
    s3.map
      (fun c => if (97 ≤ c ∧ c ≤ 122) ∨ (48 ≤ c ∧ c ≤ 57) ∨ isWsCode c = true then c else 32)
  s4.filter (fun c => !isWsCode c)

/-- Tier 1 of findBestLocationMatch: exact name match after trim+lowercase. -/
def tier1Pred (endpointNorm : Str) (l : LocationRow) : Bool :=
  decide (jsToLowerCase (trimStr l.name) = endpointNorm)

/-- Tier 2: exact match after additionally removing all whitespace. -/
def tier2Pred (endpointNoSpace : Str) (l : LocationRow) : Bool :=
  decide ((jsToLowerCase (trimStr l.name)).filter (fun c => !isWsCode c) = endpointNoSpace)

/-- Tier 3: the endpoint core key occurs inside the candidate's name
    (whitespace removed) or inside the candidate's core key. -/
def tier3Pred (endpointCore : Str) (l : LocationRow) : Bool :=
  strIncludes ((jsToLowerCase l.name).filter (fun c => !isWsCode c)) endpointCore ||
  strIncludes (buildLocationCoreKey l.name) endpointCore

/-- One candidate step of the tier-4 best-score loop (source lines 1209-1224),
    state (best, bestScore, bestByCode). -/
def tier4Step (endpointName : Str) (st : Option LocationRow × Rat × Bool)
    (loc : LocationRow) : Option LocationRow × Rat × Bool :=
  let sc := computeLocationMatchScore endpointName loc.name
  if st.2.1 < sc.score ∨ (sc.byCode = true ∧ st.2.2 = false ∧ sc.score = st.2.1)
  then (some loc, sc.score, sc.byCode) else st

/-- Tier 4 best-candidate fold (source lines 1204-1224). -/
def tier4Fold (endpointName : Str) (locs : List LocationRow) :
    Option LocationRow × Rat × Bool :=
  locs.foldl (tier4Step endpointName) (none, 0, false)

/-- findBestLocationMatch (source lines 1157-1230). -/
def findBestLocationMatch (endpointName : Str) (locs : List LocationRow)
    (threshold : Rat) : Option LocationRow :=
  if trimStr endpointName = [] ∨ locs = [] then none
  else
    let endpointNorm := jsToLowerCase (trimStr endpointName)
    match locs.find? (fun l => tier1Pred endpointNorm l) with
    | some exact => some exact
    | none =>
      let endpointNoSpace := endpointNorm.filter (fun c => !isWsCode c)
      match locs.find? (fun l => tier2Pred endpointNoSpace l) with
      | some exactNoSpace => some exactNoSpace
      | none =>
        let endpointCore := buildEndpointCoreKey endpointName
        let searchMatch :=
          if endpointCore = [] then none
          else locs.find? (fun l => tier3Pred endpointCore l)
        match searchMatch with
        | some m => some m
        | none =>
          match tier4Fold endpointName locs with
          | (none, _, _) => none
          | (some best, bestScore, _) =>
            if bestScore < threshold then none else some best

/-- Push one entry into the chosen side of a bucket pair. -/
def pushPair (side : RouteSideTag) (entry : LiveRouteVehicleEntry) (lh : Rat)
    (pr : LiveRouteSideBucket × LiveRouteSideBucket) :
    LiveRouteSideBucket × LiveRouteSideBucket :=
  match side with
  | RouteSideTag.up => (pushEntry pr.1 entry lh, pr.2)
  | RouteSideTag.down => (pr.1, pushEntry pr.2 entry lh)

/-- Counting invariant of one side bucket: totalVehicles is the number of
    entries and lateVehicles the number of strictly late entries. -/
def bucketCountInv (sb : LiveRouteSideBucket) : Prop :=
  sb.totalVehicles = sb.vehicles.length ∧
  sb.lateVehicles = sb.vehicles.countP (fun v => decide (0 < v.lateHours))

def routeCountInv (r : LiveRouteRoute) : Prop := bucketCountInv r.up ∧ bucketCountInv r.down

/-- At least one of the two side buckets holds a vehicle entry. -/
def routeHasVehicle (r : LiveRouteRoute) : Prop := r.up.vehicles ≠ [] ∨ r.down.vehicles ≠ []

/-- Well-formedness of the aggregation accumulator: every stored value
    carries its own key as id. -/
def accWF (m : List (Str × LiveRouteRoute)) : Prop := ∀ p ∈ m, p.2.id = p.1

/- ------------------------------------------------------------------ -/
/- Concrete reference data used by the witnesses and counterexamples. -/
/- ------------------------------------------------------------------ -/

def blankParsedRow : ParsedRow :=
  { vehicleNumber := [], lastLocationDate := [], vehicleGroup := [], lastLocation := []
    speedKmph := [], consignerName := [], consigneeName := [], dispatchDate := []
    eta := [], plannedDistance := [], remainingDistance := [], tripStatus := []
    delayTime := [], rpsNumber := [] }

def refRouteR1 : RouteIndexItem :=
  { id := strLit ("R1")
    RouteName := strLit ("LUCKNOW/AMBALA")
    Route_Side := some RouteSideTag.up
    Source := some (strLit ("LUCKNOW"))
    Destination := some (strLit ("AMBALA(AML11)"))
    Middle_Stops := none }

def refRouteR2NullSide : RouteIndexItem :=
  { id := strLit ("R2")
    RouteName := strLit ("DELHI/JAIPUR")
    Route_Side := none
    Source := some (strLit ("DELHI"))
    Destination := some (strLit ("JAIPUR"))
    Middle_Stops := none }

def refRouteEmptyId : RouteIndexItem :=
  { id := strLit ("")
    RouteName := strLit ("DELHI/JAIPUR")
    Route_Side := some RouteSideTag.up
    Source := some (strLit ("DELHI"))
    Destination := some (strLit ("JAIPUR"))
    Middle_Stops := none }

def shipC1 : ParsedRow :=
  { blankParsedRow with
    vehicleNumber := strLit ("UP32AB1234")
    consignerName := strLit ("LUCKNOW-11")
    consigneeName := strLit ("SAFEXPRESS AMBALA(AML11)")
    delayTime := strLit ("01:15:00")
    eta := strLit ("NA;15/06/2024 09:00:00") }

def shipMatchedUp : ParsedRow :=
  { blankParsedRow with
    vehicleNumber := strLit ("UP32AB1234")
    consignerName := strLit ("LUCKNOW")
    consigneeName := strLit ("AMBALA(AML11)")
    delayTime := strLit ("01:15:00")
    eta := strLit ("NA;15/06/2024 09:00:00") }

def shipNullSide : ParsedRow :=
  { blankParsedRow with
    vehicleNumber := strLit ("DL01CD5678")
    consignerName := strLit ("DELHI")
    consigneeName := strLit ("JAIPUR")
    delayTime := strLit ("00:30:00") }

def mergedC1 : List LiveMergedRow :=
  mergeWithRoutes [shipC1] (buildRouteIndex [refRouteR1])

def mergedMatchedUp : List LiveMergedRow :=
  mergeWithRoutes [shipMatchedUp] (buildRouteIndex [refRouteR1])

def rowNullSide : LiveMergedRow :=
  mergeRow (buildRouteIndex [refRouteR2NullSide]) shipNullSide

def mergedEmptyId : List LiveMergedRow :=
  mergeWithRoutes [shipNullSide] (buildRouteIndex [refRouteEmptyId])

def arbitraryLiveRoute : LiveRouteRoute :=
  { id := [], source := [], destination := []
    sourceLat := none, sourceLng := none, destLat := none, destLng := none
    up := emptySideBucket, down := emptySideBucket }

def locMapsC9 : LocationMaps :=
  { cityByNormName := [(strLit ("LUCKNOW"), { rawName := strLit ("Lucknow"), lat := mkRat 10 1, lng := mkRat 20 1 })]
    landmarkByNormCode := [(strLit ("AML11"), { rawName := strLit ("Safexpress Ambala (AML11)"), lat := mkRat 30 1, lng := mkRat 40 1 })]
    landmarkByNormName := [] }

def rowC9 : LiveMergedRow :=
  { (mergeRow (buildRouteIndex [refRouteR1]) shipC1) with
    routeSourceLat := some (mkRat 1 1)
    routeSourceLng := some (mkRat 2 1)
    routeDestinationLat := some (mkRat 3 1)
    routeDestinationLng := some (mkRat 4 1) }

def blankLocC4 : LocationRow :=
  { name := strLit (" "), Latitude := mkRat 0 1, Longitude := mkRat 0 1 }

def locDelhiExtra : LocationRow :=
  { name := strLit ("Safexpress Delhi Extra Depot"), Latitude := mkRat 1 1, Longitude := mkRat 2 1 }

def locDelhiExact : LocationRow :=
  { name := strLit ("safexpress delhi"), Latitude := mkRat 3 1, Longitude := mkRat 4 1 }

def locMumbai : LocationRow :=
  { name := strLit ("MUMBAI"), Latitude := mkRat 5 1, Longitude := mkRat 6 1 }

/- ------------------------------------------------------------------ -/
/- Theorems.                                                          -/
/- ------------------------------------------------------------------ -/

theorem jsAdd_eq (a b : Rat) : jsAdd a b = a + b := by
  unfold jsAdd
  rw [Rat.mkRat_eq_div]
  have ha : ((a.den : Rat)) ≠ 0 := by exact_mod_cast a.den_nz
  have hb : ((b.den : Rat)) ≠ 0 := by exact_mod_cast b.den_nz
  conv_rhs => rw [← Rat.num_div_den a, ← Rat.num_div_den b]
  rw [div_add_div _ _ ha hb]
  push_cast
  ring

theorem intToRat_eq (n : Int) : intToRat n = (n : Rat) := by
  unfold intToRat
  rw [Rat.mkRat_eq_div]
  simp

theorem toLowerCode_toUpperCode (c : Nat) : toLowerCode (toUpperCode c) = toLowerCode c := by
  unfold toLowerCode toUpperCode
  split_ifs <;> omega

theorem toLowerCode_of_ws {c : Nat} (h : isWsCode c = true) : toLowerCode c = c := by
  simp only [isWsCode, Bool.or_eq_true, beq_iff_eq, Bool.and_eq_true,
    decide_eq_true_eq] at h
  unfold toLowerCode
  split_ifs with h1
  · omega
  · rfl

theorem isWsCode_toLowerCode {c : Nat} (h : isWsCode c = true) :
    isWsCode (toLowerCode c) = true := by
  rw [toLowerCode_of_ws h]
  exact h

theorem normalizeSimple_upper (s : Str) :
    normalizeSimple (jsToUpperCase s) = normalizeSimple s := by
  unfold normalizeSimple jsToLowerCase jsToUpperCase
  have hcomp : toLowerCode ∘ toUpperCode = toLowerCode := funext toLowerCode_toUpperCode
  rw [List.map_map, hcomp]

theorem filter_lower_ws_nil {u : Str} (hu : ∀ c ∈ u, isWsCode c = true) :
    (List.map toLowerCode u).filter (fun c => !isWsCode c) = [] := by
  rw [List.filter_eq_nil_iff]
  intro a ha
  simp only [List.mem_map] at ha
  obtain ⟨b, hb, rfl⟩ := ha
  simp [isWsCode_toLowerCode (hu b hb)]

theorem normalizeSimple_ws_pad (s u v : Str) (hu : ∀ c ∈ u, isWsCode c = true)
    (hv : ∀ c ∈ v, isWsCode c = true) :
    normalizeSimple (u ++ s ++ v) = normalizeSimple s := by
  unfold normalizeSimple jsToLowerCase
  rw [List.map_append, List.map_append, List.filter_append, List.filter_append,
    filter_lower_ws_nil hu, filter_lower_ws_nil hv]
  simp

/-- C8: for all strings s and t, makeRouteKey(s, t) equals
    makeRouteKey(upper(s), upper(t)), and makeRouteKey is invariant to
    surrounding whitespace in either argument, so identical raw
    (source, destination) strings always produce identical match keys
    regardless of case or whitespace. -/
theorem c8_makeRouteKey_case_ws_invariant :
    ∀ s t : Str,
      makeRouteKey s t = makeRouteKey (jsToUpperCase s) (jsToUpperCase t) ∧
      ∀ u v : Str, (∀ c ∈ u, isWsCode c = true) → (∀ c ∈ v, isWsCode c = true) →
        makeRouteKey (u ++ s ++ v) t = makeRouteKey s t ∧
        makeRouteKey s (u ++ t ++ v) = makeRouteKey s t := by
  intro s t
  constructor
  · unfold makeRouteKey
    rw [normalizeSimple_upper, normalizeSimple_upper]
  · intro u v hu hv
    constructor
    · unfold makeRouteKey
      rw [normalizeSimple_ws_pad s u v hu hv]
    · unfold makeRouteKey
      rw [normalizeSimple_ws_pad t u v hu hv]

theorem c8_makeRouteKey_case_ws_invariant_witness :
    makeRouteKey (strLit ("LUCKNOW")) (strLit ("Ambala")) =
        makeRouteKey (jsToUpperCase (strLit ("LUCKNOW"))) (jsToUpperCase (strLit ("Ambala"))) ∧
    makeRouteKey ([32] ++ strLit ("LUCKNOW") ++ [9]) (strLit ("Ambala")) =
        makeRouteKey (strLit ("LUCKNOW")) (strLit ("Ambala")) :=
  ⟨(c8_makeRouteKey_case_ws_invariant (strLit ("LUCKNOW")) (strLit ("Ambala"))).1,
   ((c8_makeRouteKey_case_ws_invariant (strLit ("LUCKNOW")) (strLit ("Ambala"))).2 [32] [9]
      (by decide) (by decide)).1⟩

theorem splitOnC_cons (sep c : Nat) (rest : Str) :
    splitOnC sep (c :: rest) =
      (if c = sep then [] :: splitOnC sep rest
       else
         match splitOnC sep rest with
         | [] => [[c]]
         | p :: ps => (c :: p) :: ps) := rfl

theorem splitOnC_ne_nil (sep : Nat) (s : Str) : splitOnC sep s ≠ [] := by
  induction s with
  | nil => simp [splitOnC]
  | cons c rest ih =>
    rw [splitOnC_cons]
    split_ifs
    · simp
    · cases h : splitOnC sep rest <;> simp

theorem splitOnC_not_mem (sep : Nat) {a : Str} (ha : sep ∉ a) : splitOnC sep a = [a] := by
  induction a with
  | nil => rfl
  | cons c rest ih =>
    simp only [List.mem_cons, not_or] at ha
    rw [splitOnC_cons, if_neg (fun h => ha.1 h.symm), ih ha.2]

theorem splitOnC_append (sep : Nat) {a : Str} (b : Str) (ha : sep ∉ a) :
    splitOnC sep (a ++ sep :: b) = a :: splitOnC sep b := by
  induction a with
  | nil => simp [splitOnC_cons]
  | cons c rest ih =>
    simp only [List.mem_cons, not_or] at ha
    rw [List.cons_append, splitOnC_cons, if_neg (fun h => ha.1 h.symm), ih ha.2]

theorem ne_58_of_digit {ds : List Nat} (h : ∀ d ∈ ds, d < 10) : (58 : Nat) ∉ digitStr ds := by
  simp only [digitStr, List.mem_map, not_exists]
  intro d hmem
  have hd := h d hmem.1
  omega

theorem isDigitCode_digit {d : Nat} (h : d < 10) : isDigitCode (48 + d) = true := by
  simp only [isDigitCode, Bool.and_eq_true, decide_eq_true_eq]
  omega

theorem isWsCode_digit {d : Nat} (h : d < 10) : isWsCode (48 + d) = false := by
  simp only [isWsCode, Bool.or_eq_false_iff, beq_eq_false_iff_ne, ne_eq,
    Bool.and_eq_false_iff, decide_eq_false_iff_not, not_le]
  omega

theorem takeWhile_digitStr {ds : List Nat} (h : ∀ d ∈ ds, d < 10) :
    (digitStr ds).takeWhile isDigitCode = digitStr ds := by
  induction ds with
  | nil => rfl
  | cons d rest ih =>
    simp only [digitStr, List.map_cons, List.takeWhile_cons,
      isDigitCode_digit (h d (List.mem_cons_self d rest))]
    exact congrArg (List.cons (48 + d)) (ih (fun x hx => h x (List.mem_cons_of_mem d hx)))

theorem foldl_digitStr (l : List Nat) : ∀ a : Nat,
    List.foldl (fun a c => 10 * a + (c - 48)) a (digitStr l) =
      List.foldl (fun a d => 10 * a + d) a l := by
  induction l with
  | nil => intro a; rfl
  | cons d rest ih =>
    intro a
    simp only [digitStr, List.map_cons, List.foldl_cons]
    have hstep : 10 * a + (48 + d - 48) = 10 * a + d := by omega
    rw [hstep]
    exact ih (10 * a + d)

theorem natFromDigitCodes_digitStr (ds : List Nat) :
    natFromDigitCodes (digitStr ds) = digitVal ds := foldl_digitStr ds 0

theorem parseIntJS_digitStr {ds : List Nat} (hne : ds ≠ []) (h : ∀ d ∈ ds, d < 10) :
    parseIntJS (digitStr ds) = some ((digitVal ds : Nat) : Int) := by
  cases ds with
  | nil => exact absurd rfl hne
  | cons d rest =>
    have hd : d < 10 := h d (List.mem_cons_self d rest)
    unfold parseIntJS
    have hdrop : (digitStr (d :: rest)).dropWhile isWsCode = digitStr (d :: rest) := by
      simp only [digitStr, List.map_cons, List.dropWhile_cons, isWsCode_digit hd]
      simp
    rw [hdrop]
    simp only [digitStr, List.map_cons]
    rw [if_neg (by omega : ¬(48 + d = 43)), if_neg (by omega : ¬(48 + d = 45))]
    have htake : parseDigitsJS ((48 + d) :: List.map (fun x => 48 + x) rest) =
        some (digitVal (d :: rest)) := by
      unfold parseDigitsJS
      have : ((48 + d) :: List.map (fun x => 48 + x) rest) = digitStr (d :: rest) := by
        simp [digitStr]
      rw [this, takeWhile_digitStr h]
      rw [if_neg (by simp [digitStr])]
      rw [natFromDigitCodes_digitStr]
    rw [htake]
    rfl

theorem parseDelayToHours_hms {hs ms ss : List Nat} (h1 : hs ≠ []) (h2 : ms ≠ []) (h3 : ss ≠ [])
    (d1 : ∀ d ∈ hs, d < 10) (d2 : ∀ d ∈ ms, d < 10) (d3 : ∀ d ∈ ss, d < 10) :
    parseDelayToHours (digitStr hs ++ [58] ++ digitStr ms ++ [58] ++ digitStr ss) =
      (digitVal hs : Rat) + (digitVal ms : Rat) / 60 + (digitVal ss : Rat) / 3600 := by
  have hsplit : splitOnC 58 (digitStr hs ++ [58] ++ digitStr ms ++ [58] ++ digitStr ss) =
      [digitStr hs, digitStr ms, digitStr ss] := by
    have e1 : digitStr hs ++ [58] ++ digitStr ms ++ [58] ++ digitStr ss =
        digitStr hs ++ 58 :: (digitStr ms ++ 58 :: digitStr ss) := by
      simp [List.append_assoc]
    rw [e1, splitOnC_append 58 _ (ne_58_of_digit d1),
      splitOnC_append 58 _ (ne_58_of_digit d2), splitOnC_not_mem 58 (ne_58_of_digit d3)]
  have hne : digitStr hs ++ [58] ++ digitStr ms ++ [58] ++ digitStr ss ≠ [] := by
    simp
  unfold parseDelayToHours
  rw [if_neg hne, hsplit]
  simp only [List.map_cons, List.map_nil, parseIntJS_digitStr h1 d1, parseIntJS_digitStr h2 d2,
    parseIntJS_digitStr h3 d3, List.length_cons, List.length_nil, List.any_cons, List.any_nil,
    Option.isNone_some, Bool.or_self, Bool.or_false, List.getD, Option.getD_some]
  rw [if_neg (by norm_num)]
  simp only [List.get?_cons_zero, List.get?_cons_succ, Option.getD_some]
  rw [jsAdd_eq, jsAdd_eq, intToRat_eq, Rat.mkRat_eq_div, Rat.mkRat_eq_div]
  push_cast
  ring

theorem parseDelayToHours_hm {hs ms : List Nat} (h1 : hs ≠ []) (h2 : ms ≠ [])
    (d1 : ∀ d ∈ hs, d < 10) (d2 : ∀ d ∈ ms, d < 10) :
    parseDelayToHours (digitStr hs ++ [58] ++ digitStr ms) =
      (digitVal hs : Rat) + (digitVal ms : Rat) / 60 := by
  have hsplit : splitOnC 58 (digitStr hs ++ [58] ++ digitStr ms) =
      [digitStr hs, digitStr ms] := by
    have e1 : digitStr hs ++ [58] ++ digitStr ms = digitStr hs ++ 58 :: digitStr ms := by
      simp [List.append_assoc]
    rw [e1, splitOnC_append 58 _ (ne_58_of_digit d1), splitOnC_not_mem 58 (ne_58_of_digit d2)]
  have hne : digitStr hs ++ [58] ++ digitStr ms ≠ [] := by
    simp
  unfold parseDelayToHours
  rw [if_neg hne, hsplit]
  simp only [List.map_cons, List.map_nil, parseIntJS_digitStr h1 d1, parseIntJS_digitStr h2 d2,
    List.length_cons, List.length_nil, List.any_cons, List.any_nil,
    Option.isNone_some, Bool.or_self, Bool.or_false, List.getD, Option.getD_some]
  rw [if_neg (by norm_num)]
  simp only [List.get?_cons_zero, List.get?_cons_succ, Option.getD_some, List.get?_nil,
    Option.getD_none]
  rw [jsAdd_eq, jsAdd_eq, intToRat_eq, Rat.mkRat_eq_div, Rat.mkRat_eq_div]
  push_cast
  ring

theorem parseDelayToHours_no_colon {s : Str} (h : (58 : Nat) ∉ s) : parseDelayToHours s = 0 := by
  by_cases hs : s = []
  · rw [hs]; rfl
  · unfold parseDelayToHours
    rw [if_neg hs, splitOnC_not_mem 58 h]
    rw [if_pos (Or.inl (by norm_num))]

theorem parseDelayToHours_ex230 : parseDelayToHours (strLit ("02:30:00")) = 5 / 2 := by
  rw [show strLit ("02:30:00") =
      digitStr [0, 2] ++ [58] ++ digitStr [3, 0] ++ [58] ++ digitStr [0, 0] from by decide]
  rw [parseDelayToHours_hms (by decide) (by decide) (by decide) (by decide) (by decide) (by decide)]
  norm_num [show digitVal [0, 2] = 2 from rfl, show digitVal [3, 0] = 30 from rfl,
    show digitVal [0, 0] = 0 from rfl]

/-- C3: parseDelayToHours parses "HH:MM:SS" as hh + mm/60 + ss/3600 (here for
    arbitrary decimal digit strings), a missing seconds field ("HH:MM")
    defaults to 0, a string without a colon yields 0, and the spec examples
    02:30:00 ↦ 2.5, "" ↦ 0, "garbage" ↦ 0 hold; the function is total. -/
theorem c3_parseDelayToHours_spec :
    (∀ hs ms ss : List Nat, hs ≠ [] → ms ≠ [] → ss ≠ [] →
      (∀ d ∈ hs, d < 10) → (∀ d ∈ ms, d < 10) → (∀ d ∈ ss, d < 10) →
      parseDelayToHours (digitStr hs ++ [58] ++ digitStr ms ++ [58] ++ digitStr ss) =
        (digitVal hs : Rat) + (digitVal ms : Rat) / 60 + (digitVal ss : Rat) / 3600) ∧
    (∀ hs ms : List Nat, hs ≠ [] → ms ≠ [] →
      (∀ d ∈ hs, d < 10) → (∀ d ∈ ms, d < 10) →
      parseDelayToHours (digitStr hs ++ [58] ++ digitStr ms) =
        (digitVal hs : Rat) + (digitVal ms : Rat) / 60) ∧
    (∀ s : Str, (58 : Nat) ∉ s → parseDelayToHours s = 0) ∧
    parseDelayToHours (strLit ("02:30:00")) = 5 / 2 ∧
    parseDelayToHours (strLit ("")) = 0 ∧
    parseDelayToHours (strLit ("garbage")) = 0 :=
  ⟨fun _ _ _ h1 h2 h3 d1 d2 d3 => parseDelayToHours_hms h1 h2 h3 d1 d2 d3,
   fun _ _ h1 h2 d1 d2 => parseDelayToHours_hm h1 h2 d1 d2,
   fun _ h => parseDelayToHours_no_colon h,
   parseDelayToHours_ex230, by decide, by decide⟩

theorem c3_parseDelayToHours_spec_witness :
    parseDelayToHours (digitStr [0, 1] ++ [58] ++ digitStr [1, 5] ++ [58] ++ digitStr [0, 0]) =
      (digitVal [0, 1] : Rat) + (digitVal [1, 5] : Rat) / 60 + (digitVal [0, 0] : Rat) / 3600 :=
  c3_parseDelayToHours_spec.1 [0, 1] [1, 5] [0, 0] (by decide) (by decide) (by decide)
    (by decide) (by decide) (by decide)

theorem stepAgg_guard_false {row : LiveMergedRow}
    (coords : List (Str × (Option Rat × Option Rat))) (m : List (Str × LiveRouteRoute))
    (hg : matchedGuardB row = false) : stepAgg coords m row = m := by
  unfold stepAgg
  rw [if_pos hg]

theorem stepAgg_some_none {row : LiveMergedRow} {m : List (Str × LiveRouteRoute)}
    {b : LiveRouteRoute} (coords : List (Str × (Option Rat × Option Rat)))
    (hg : matchedGuardB row = true) (hex : lookupAssoc m (row.routeId.getD []) = some b)
    (hrs : row.routeSide = none) : stepAgg coords m row = m := by
  simp [stepAgg, hg, hex, hrs]

theorem stepAgg_none_none {row : LiveMergedRow} {m : List (Str × LiveRouteRoute)}
    (coords : List (Str × (Option Rat × Option Rat)))
    (hg : matchedGuardB row = true) (hex : lookupAssoc m (row.routeId.getD []) = none)
    (hrs : row.routeSide = none) :
    stepAgg coords m row =
      m ++ [(row.routeId.getD [],
        freshRoute row (row.routeId.getD []) (row.routeSource.getD []) (row.routeDestination.getD []))] := by
  simp [stepAgg, hg, hex, hrs]

theorem stepAgg_some_side {row : LiveMergedRow} {m : List (Str × LiveRouteRoute)}
    {b : LiveRouteRoute} {side : RouteSideTag} (coords : List (Str × (Option Rat × Option Rat)))
    (hg : matchedGuardB row = true) (hex : lookupAssoc m (row.routeId.getD []) = some b)
    (hrs : row.routeSide = some side) :
    stepAgg coords m row =
      setAssoc m (row.routeId.getD [])
        (backfillRouteCoords
          (pushSideEntry side b
            (mkVehicleEntry coords row (parseDelayToHours row.delayTime))
            (parseDelayToHours row.delayTime)) row) := by
  simp [stepAgg, hg, hex, hrs]

theorem stepAgg_none_side {row : LiveMergedRow} {m : List (Str × LiveRouteRoute)}
    {side : RouteSideTag} (coords : List (Str × (Option Rat × Option Rat)))
    (hg : matchedGuardB row = true) (hex : lookupAssoc m (row.routeId.getD []) = none)
    (hrs : row.routeSide = some side) :
    stepAgg coords m row =
      setAssoc
        (m ++ [(row.routeId.getD [],
          freshRoute row (row.routeId.getD []) (row.routeSource.getD []) (row.routeDestination.getD []))])
        (row.routeId.getD [])
        (backfillRouteCoords
          (pushSideEntry side
            (freshRoute row (row.routeId.getD []) (row.routeSource.getD []) (row.routeDestination.getD []))
            (mkVehicleEntry coords row (parseDelayToHours row.delayTime))
            (parseDelayToHours row.delayTime)) row) := by
  simp [stepAgg, hg, hex, hrs]

theorem lookupAssoc_nil {α : Type} (k : Str) : lookupAssoc ([] : List (Str × α)) k = none := rfl

theorem lookupAssoc_cons {α : Type} (p : Str × α) (rest : List (Str × α)) (k : Str) :
    lookupAssoc (p :: rest) k = if p.1 = k then some p.2 else lookupAssoc rest k := by
  by_cases hp : p.1 = k
  · simp [lookupAssoc, List.find?_cons, hp]
  · simp [lookupAssoc, List.find?_cons, hp]

theorem lookupAssoc_append {α : Type} (m1 m2 : List (Str × α)) (k : Str) :
    lookupAssoc (m1 ++ m2) k = (lookupAssoc m1 k).or (lookupAssoc m2 k) := by
  induction m1 with
  | nil => simp [lookupAssoc_nil]
  | cons p rest ih =>
    by_cases hp : p.1 = k
    · simp [lookupAssoc_cons, hp]
    · simp [lookupAssoc_cons, hp, ih]

theorem lookupAssoc_setAssoc_self {α : Type} {m : List (Str × α)} {k : Str} {b : α} (v : α)
    (hsome : lookupAssoc m k = some b) : lookupAssoc (setAssoc m k v) k = some v := by
  induction m with
  | nil => simp [lookupAssoc_nil] at hsome
  | cons p rest ih =>
    by_cases hp : p.1 = k
    · simp [setAssoc, lookupAssoc_cons, hp]
    · rw [lookupAssoc_cons] at hsome
      rw [if_neg hp] at hsome
      simp only [setAssoc, List.map_cons] at ih ⊢
      rw [if_neg hp, lookupAssoc_cons, if_neg hp]
      exact ih hsome

theorem lookupAssoc_setAssoc_ne {α : Type} (m : List (Str × α)) {k k2 : Str} (v : α)
    (hne : k2 ≠ k) : lookupAssoc (setAssoc m k v) k2 = lookupAssoc m k2 := by
  induction m with
  | nil => rfl
  | cons p rest ih =>
    by_cases hp : p.1 = k
    · simp only [setAssoc, List.map_cons, if_pos hp] at ih ⊢
      rw [lookupAssoc_cons, lookupAssoc_cons]
      rw [if_neg (Ne.symm hne), if_neg (fun h => Ne.symm hne (hp.symm.trans h))]
      exact ih
    · simp only [setAssoc, List.map_cons, if_neg hp] at ih ⊢
      rw [lookupAssoc_cons, lookupAssoc_cons, ih]

theorem mem_setAssoc {α : Type} {m : List (Str × α)} {k : Str} {v : α} {p : Str × α}
    (hp : p ∈ setAssoc m k v) : p = (k, v) ∨ (p ∈ m ∧ p.1 ≠ k) := by
  simp only [setAssoc, List.mem_map] at hp
  obtain ⟨q, hq, rfl⟩ := hp
  by_cases hqk : q.1 = k
  · left; simp [hqk]
  · right; simp [hqk, hq]

theorem lookupAssoc_mem {α : Type} {m : List (Str × α)} {k : Str} {b : α}
    (h : lookupAssoc m k = some b) : (k, b) ∈ m := by
  induction m with
  | nil => simp [lookupAssoc_nil] at h
  | cons p rest ih =>
    rw [lookupAssoc_cons] at h
    by_cases hp : p.1 = k
    · rw [if_pos hp] at h
      have hb := Option.some.inj h
      cases p with
      | mk p1 p2 =>
        simp only at hp hb
        exact List.mem_cons.mpr (Or.inl (by rw [hp, hb]))
    · rw [if_neg hp] at h
      exact List.mem_cons_of_mem p (ih h)

theorem pushEntry_count {sb : LiveRouteSideBucket} {entry : LiveRouteVehicleEntry} {lh : Rat}
    (he : entry.lateHours = lh) (h : bucketCountInv sb) :
    bucketCountInv (pushEntry sb entry lh) := by
  obtain ⟨ht, hl⟩ := h
  constructor
  · simp [pushEntry, ht]
  · simp only [pushEntry, List.countP_append, hl, List.countP_cons, List.countP_nil]
    rw [he]
    by_cases h0 : 0 < lh
    · simp [h0]
    · simp [h0]

theorem backfill_up (b : LiveRouteRoute) (row : LiveMergedRow) :
    (backfillRouteCoords b row).up = b.up := by
  unfold backfillRouteCoords backfillDst backfillSrc
  split_ifs <;> rfl

theorem backfill_down (b : LiveRouteRoute) (row : LiveMergedRow) :
    (backfillRouteCoords b row).down = b.down := by
  unfold backfillRouteCoords backfillDst backfillSrc
  split_ifs <;> rfl

theorem backfill_id (b : LiveRouteRoute) (row : LiveMergedRow) :
    (backfillRouteCoords b row).id = b.id := by
  unfold backfillRouteCoords backfillDst backfillSrc
  split_ifs <;> rfl

theorem pushSideEntry_count {b : LiveRouteRoute} {entry : LiveRouteVehicleEntry} {lh : Rat}
    (side : RouteSideTag) (he : entry.lateHours = lh) (h : routeCountInv b) :
    routeCountInv (pushSideEntry side b entry lh) := by
  cases side
  · exact ⟨pushEntry_count he h.1, h.2⟩
  · exact ⟨h.1, pushEntry_count he h.2⟩

theorem pushSideEntry_id (side : RouteSideTag) (b : LiveRouteRoute)
    (entry : LiveRouteVehicleEntry) (lh : Rat) : (pushSideEntry side b entry lh).id = b.id := by
  cases side <;> rfl

theorem freshRoute_count (row : LiveMergedRow) (rid rsrc rdst : Str) :
    routeCountInv (freshRoute row rid rsrc rdst) := ⟨⟨rfl, rfl⟩, ⟨rfl, rfl⟩⟩

theorem routeCountInv_backfill {b : LiveRouteRoute} (row : LiveMergedRow)
    (h : routeCountInv b) : routeCountInv (backfillRouteCoords b row) := by
  constructor
  · rw [backfill_up]; exact h.1
  · rw [backfill_down]; exact h.2

theorem stepAgg_count (coords : List (Str × (Option Rat × Option Rat))) (row : LiveMergedRow)
    {m : List (Str × LiveRouteRoute)} (h : ∀ p ∈ m, routeCountInv p.2) :
    ∀ p ∈ stepAgg coords m row, routeCountInv p.2 := by
  by_cases hg : matchedGuardB row = false
  · rw [stepAgg_guard_false coords m hg]; exact h
  · have hg' : matchedGuardB row = true := by
      cases hb : matchedGuardB row
      · exact absurd hb hg
      · rfl
    cases hex : lookupAssoc m (row.routeId.getD []) with
    | none =>
      cases hrs : row.routeSide with
      | none =>
        rw [stepAgg_none_none coords hg' hex hrs]
        intro p hp
        rcases List.mem_append.mp hp with hp | hp
        · exact h p hp
        · simp only [List.mem_singleton] at hp
          subst hp
          exact freshRoute_count row _ _ _
      | some side =>
        rw [stepAgg_none_side coords hg' hex hrs]
        intro p hp
        rcases mem_setAssoc hp with hp | ⟨hp, _⟩
        · subst hp
          exact routeCountInv_backfill row
            (pushSideEntry_count side rfl (freshRoute_count row _ _ _))
        · rcases List.mem_append.mp hp with hp | hp
          · exact h p hp
          · simp only [List.mem_singleton] at hp
            subst hp
            exact freshRoute_count row _ _ _
    | some b =>
      cases hrs : row.routeSide with
      | none =>
        rw [stepAgg_some_none coords hg' hex hrs]
        exact h
      | some side =>
        rw [stepAgg_some_side coords hg' hex hrs]
        intro p hp
        rcases mem_setAssoc hp with hp | ⟨hp, _⟩
        · subst hp
          have hbinv : routeCountInv b := h (row.routeId.getD [], b) (lookupAssoc_mem hex)
          exact routeCountInv_backfill row (pushSideEntry_count side rfl hbinv)
        · exact h p hp

theorem foldl_stepAgg_count (coords : List (Str × (Option Rat × Option Rat)))
    (rows : List LiveMergedRow) :
    ∀ m : List (Str × LiveRouteRoute), (∀ p ∈ m, routeCountInv p.2) →
      ∀ p ∈ rows.foldl (stepAgg coords) m, routeCountInv p.2 := by
  induction rows with
  | nil => intro m h; exact h
  | cons row rest ih =>
    intro m h
    exact ih (stepAgg coords m row) (stepAgg_count coords row h)

/-- C6: for every input list of merged shipments and every vehicle-coordinate
    map, every SideBucket (Up and Down of every RouteAggregate) produced by
    aggregateLiveRoutes satisfies lateVehicles ≤ totalVehicles, and
    lateVehicles equals the number of its VehicleEntry elements with
    lateHours strictly greater than 0. -/
theorem c6_bucket_counters (merged : List LiveMergedRow)
    (coords : List (Str × (Option Rat × Option Rat))) :
    ∀ r ∈ aggregateLiveRoutes merged coords,
      (r.up.lateVehicles ≤ r.up.totalVehicles ∧
        r.up.lateVehicles = r.up.vehicles.countP (fun v => decide (0 < v.lateHours))) ∧
      (r.down.lateVehicles ≤ r.down.totalVehicles ∧
        r.down.lateVehicles = r.down.vehicles.countP (fun v => decide (0 < v.lateHours))) := by
  intro r hr
  unfold aggregateLiveRoutes at hr
  simp only [List.mem_map] at hr
  obtain ⟨p, hp, rfl⟩ := hr
  have hinv := foldl_stepAgg_count coords merged [] (by intro q hq; simp at hq) p hp
  obtain ⟨⟨hu1, hu2⟩, ⟨hd1, hd2⟩⟩ := hinv
  refine ⟨⟨?_, hu2⟩, ⟨?_, hd2⟩⟩
  · rw [hu1, hu2]; exact List.countP_le_length _
  · rw [hd1, hd2]; exact List.countP_le_length _

theorem c6_bucket_counters_witness :
    (((aggregateLiveRoutes mergedMatchedUp []).headD arbitraryLiveRoute).up.lateVehicles ≤
      ((aggregateLiveRoutes mergedMatchedUp []).headD arbitraryLiveRoute).up.totalVehicles) ∧
    ((aggregateLiveRoutes mergedMatchedUp []).headD arbitraryLiveRoute).up.lateVehicles =
      ((aggregateLiveRoutes mergedMatchedUp []).headD arbitraryLiveRoute).up.vehicles.countP
        (fun v => decide (0 < v.lateHours)) :=
  (c6_bucket_counters mergedMatchedUp []
    ((aggregateLiveRoutes mergedMatchedUp []).headD arbitraryLiveRoute) (by decide)).1

theorem pushSideEntry_hasVehicle (side : RouteSideTag) (b : LiveRouteRoute)
    (entry : LiveRouteVehicleEntry) (lh : Rat) :
    routeHasVehicle (pushSideEntry side b entry lh) := by
  cases side
  · left; simp [pushSideEntry, pushEntry]
  · right; simp [pushSideEntry, pushEntry]

theorem routeHasVehicle_backfill {b : LiveRouteRoute} (row : LiveMergedRow)
    (h : routeHasVehicle b) : routeHasVehicle (backfillRouteCoords b row) := by
  unfold routeHasVehicle
  rw [backfill_up, backfill_down]
  exact h

theorem stepAgg_hasVehicle (coords : List (Str × (Option Rat × Option Rat)))
    {row : LiveMergedRow} (hrow : matchedGuardB row = true → row.routeSide ≠ none)
    {m : List (Str × LiveRouteRoute)} (h : ∀ p ∈ m, routeHasVehicle p.2) :
    ∀ p ∈ stepAgg coords m row, routeHasVehicle p.2 := by
  by_cases hg : matchedGuardB row = false
  · rw [stepAgg_guard_false coords m hg]; exact h
  · have hg' : matchedGuardB row = true := by
      cases hb : matchedGuardB row
      · exact absurd hb hg
      · rfl
    cases hrs : row.routeSide with
    | none => exact absurd hrs (hrow hg')
    | some side =>
      cases hex : lookupAssoc m (row.routeId.getD []) with
      | none =>
        rw [stepAgg_none_side coords hg' hex hrs]
        intro p hp
        rcases mem_setAssoc hp with hp | ⟨hp, hk⟩
        · subst hp
          exact routeHasVehicle_backfill row (pushSideEntry_hasVehicle side _ _ _)
        · rcases List.mem_append.mp hp with hp | hp
          · exact h p hp
          · simp only [List.mem_singleton] at hp
            exact absurd (congrArg Prod.fst hp) hk
      | some b =>
        rw [stepAgg_some_side coords hg' hex hrs]
        intro p hp
        rcases mem_setAssoc hp with hp | ⟨hp, _⟩
        · subst hp
          exact routeHasVehicle_backfill row (pushSideEntry_hasVehicle side _ _ _)
        · exact h p hp

theorem foldl_stepAgg_hasVehicle (coords : List (Str × (Option Rat × Option Rat)))
    {rows : List LiveMergedRow}
    (hrows : ∀ row ∈ rows, matchedGuardB row = true → row.routeSide ≠ none) :
    ∀ m : List (Str × LiveRouteRoute), (∀ p ∈ m, routeHasVehicle p.2) →
      ∀ p ∈ rows.foldl (stepAgg coords) m, routeHasVehicle p.2 := by
  induction rows with
  | nil => intro m h; exact h
  | cons row rest ih =>
    intro m h
    exact ih (fun r hr => hrows r (List.mem_cons_of_mem row hr)) (stepAgg coords m row)
      (stepAgg_hasVehicle coords (hrows row (List.mem_cons_self row rest)) h)

/-- C2 counterexample: a single merged shipment whose matched route declares
    neither Up nor Down makes aggregateLiveRoutes return a RouteAggregate
    whose Up and Down buckets are both empty, so an aggregate with both
    buckets empty can appear in the output. -/
theorem c2_empty_bucket_counterexample :
    rowNullSide.routeId = some (strLit ("R2")) ∧
    rowNullSide.routeSide = none ∧
    (aggregateLiveRoutes [rowNullSide] []).length = 1 ∧
    ∃ r ∈ aggregateLiveRoutes [rowNullSide] [],
      r.up.vehicles = [] ∧ r.down.vehicles = [] ∧
      r.up.totalVehicles = 0 ∧ r.down.totalVehicles = 0 := by decide

/-- C2 amended: a merged shipment with a matched route but a null side still
    creates its (empty) RouteAggregate, so the claim holds only under the
    proviso that every matched row declares a side: if every merged row that
    passes the matched-route guard has side Up or Down, then every
    RouteAggregate returned by aggregateLiveRoutes contains at least one
    VehicleEntry in its Up bucket or its Down bucket. -/
theorem c2_aggregate_buckets_nonempty (merged : List LiveMergedRow)
    (coords : List (Str × (Option Rat × Option Rat)))
    (hside : ∀ row ∈ merged, matchedGuardB row = true → row.routeSide ≠ none) :
    ∀ r ∈ aggregateLiveRoutes merged coords, routeHasVehicle r := by
  intro r hr
  unfold aggregateLiveRoutes at hr
  simp only [List.mem_map] at hr
  obtain ⟨p, hp, rfl⟩ := hr
  exact foldl_stepAgg_hasVehicle coords hside [] (by intro q hq; simp at hq) p hp

theorem c2_aggregate_buckets_nonempty_witness :
    routeHasVehicle ((aggregateLiveRoutes mergedMatchedUp []).headD arbitraryLiveRoute) :=
  c2_aggregate_buckets_nonempty mergedMatchedUp [] (by decide)
    ((aggregateLiveRoutes mergedMatchedUp []).headD arbitraryLiveRoute) (by decide)

/-- C1 counterexample: for the reference route R1 and the given shipment, the
    merge step finds no route (the shipment's match key, built by
    normalizeSimple from the raw consigner/consignee parts, differs from the
    route's key), so the pipeline returns no RouteAggregate at all rather
    than the single aggregate the claim describes. -/
theorem c1_pipeline_counterexample :
    aggregateLiveRoutes mergedC1 [] = [] ∧
    (mergedC1.map (fun r => r.routeId)) = [none] ∧
    (mergedC1.map (fun r => r.matchKey)) = [strLit ("lucknow-11___safexpressambala(aml11)")] ∧
    makeRouteKey (strLit ("LUCKNOW")) (strLit ("AMBALA(AML11)")) =
      strLit ("lucknow___ambala(aml11)") := by decide

/-- C1 amended: for the reference route R1 and the given shipment record, the
    merge-and-aggregate pipeline produces no RouteAggregate (the shipment's
    key lucknow-11___safexpressambala(aml11) is absent from the route index,
    whose only key is lucknow___ambala(aml11)); the shipment instead appears
    exactly once in the unmatched collection. -/
theorem c1_pipeline_amended :
    aggregateLiveRoutes mergedC1 [] = [] ∧
    collectUnmatched mergedC1 =
      [{ consignerName := strLit ("LUCKNOW-11")
         consigneeName := strLit ("SAFEXPRESS AMBALA(AML11)")
         sourceExtracted := strLit ("LUCKNOW-11")
         destinationExtracted := strLit ("SAFEXPRESS AMBALA(AML11)")
         matchKey := strLit ("lucknow-11___safexpressambala(aml11)") }] := by decide

theorem projBuckets_eq_some {m : List (Str × LiveRouteRoute)} {k : Str} {r : LiveRouteRoute}
    (h : lookupAssoc m k = some r) : projBuckets m k = (r.up, r.down) := by
  unfold projBuckets
  rw [h]

theorem projBuckets_eq_none {m : List (Str × LiveRouteRoute)} {k : Str}
    (h : lookupAssoc m k = none) : projBuckets m k = (emptySideBucket, emptySideBucket) := by
  unfold projBuckets
  rw [h]

theorem lookupAssoc_single_ne {α : Type} {k k2 : Str} (v : α) (h : ¬k = k2) :
    lookupAssoc [(k, v)] k2 = none := by
  rw [lookupAssoc_cons, if_neg h]
  rfl

theorem projBuckets_stepAgg_side_none (coords : List (Str × (Option Rat × Option Rat)))
    {row : LiveMergedRow} (hrs : row.routeSide = none)
    (m : List (Str × LiveRouteRoute)) (k : Str) :
    projBuckets (stepAgg coords m row) k = projBuckets m k := by
  by_cases hg : matchedGuardB row = false
  · rw [stepAgg_guard_false coords m hg]
  · have hg' : matchedGuardB row = true := by
      cases hb : matchedGuardB row
      · exact absurd hb hg
      · rfl
    cases hex : lookupAssoc m (row.routeId.getD []) with
    | some b => rw [stepAgg_some_none coords hg' hex hrs]
    | none =>
      rw [stepAgg_none_none coords hg' hex hrs]
      by_cases hk : row.routeId.getD [] = k
      · have h1 : lookupAssoc
            (m ++ [(row.routeId.getD [],
              freshRoute row (row.routeId.getD []) (row.routeSource.getD [])
                (row.routeDestination.getD []))]) k =
            some (freshRoute row (row.routeId.getD []) (row.routeSource.getD [])
              (row.routeDestination.getD [])) := by
          rw [lookupAssoc_append, ← hk, hex, lookupAssoc_cons, if_pos rfl]
          rfl
        rw [projBuckets_eq_some h1, projBuckets_eq_none (hk ▸ hex)]
        rfl
      · have h1 : lookupAssoc
            (m ++ [(row.routeId.getD [],
              freshRoute row (row.routeId.getD []) (row.routeSource.getD [])
                (row.routeDestination.getD []))]) k = lookupAssoc m k := by
          rw [lookupAssoc_append, lookupAssoc_single_ne _ hk]
          cases lookupAssoc m k <;> rfl
        unfold projBuckets
        rw [h1]

theorem projBuckets_stepAgg_side_some (coords : List (Str × (Option Rat × Option Rat)))
    {row : LiveMergedRow} {side : RouteSideTag} (hg : matchedGuardB row = true)
    (hrs : row.routeSide = some side) (m : List (Str × LiveRouteRoute)) (k : Str) :
    projBuckets (stepAgg coords m row) k =
      if k = row.routeId.getD [] then
        pushPair side (mkVehicleEntry coords row (parseDelayToHours row.delayTime))
          (parseDelayToHours row.delayTime) (projBuckets m k)
      else projBuckets m k := by
  cases hex : lookupAssoc m (row.routeId.getD []) with
  | some b =>
    rw [stepAgg_some_side coords hg hex hrs]
    by_cases hk : k = row.routeId.getD []
    · rw [if_pos hk, hk]
      rw [projBuckets_eq_some (lookupAssoc_setAssoc_self _ hex), projBuckets_eq_some hex]
      rw [backfill_up, backfill_down]
      cases side <;> rfl
    · rw [if_neg hk]
      unfold projBuckets
      rw [lookupAssoc_setAssoc_ne _ _ hk]
  | none =>
    rw [stepAgg_none_side coords hg hex hrs]
    by_cases hk : k = row.routeId.getD []
    · rw [if_pos hk, hk]
      have happ : lookupAssoc
          (m ++ [(row.routeId.getD [],
            freshRoute row (row.routeId.getD []) (row.routeSource.getD [])
              (row.routeDestination.getD []))]) (row.routeId.getD []) =
          some (freshRoute row (row.routeId.getD []) (row.routeSource.getD [])
            (row.routeDestination.getD [])) := by
        rw [lookupAssoc_append, hex, lookupAssoc_cons, if_pos rfl]
        rfl
      rw [projBuckets_eq_some (lookupAssoc_setAssoc_self _ happ), projBuckets_eq_none hex]
      rw [backfill_up, backfill_down]
      cases side <;> rfl
    · rw [if_neg hk]
      have h1 : lookupAssoc
          (m ++ [(row.routeId.getD [],
            freshRoute row (row.routeId.getD []) (row.routeSource.getD [])
              (row.routeDestination.getD []))]) k = lookupAssoc m k := by
        rw [lookupAssoc_append, lookupAssoc_single_ne _ (fun h => hk h.symm)]
        cases lookupAssoc m k <;> rfl
      unfold projBuckets
      rw [lookupAssoc_setAssoc_ne _ _ hk, h1]

theorem stepAgg_projBuckets_congr (coords : List (Str × (Option Rat × Option Rat)))
    (row : LiveMergedRow) {m1 m2 : List (Str × LiveRouteRoute)}
    (h : ∀ k, projBuckets m1 k = projBuckets m2 k) :
    ∀ k, projBuckets (stepAgg coords m1 row) k = projBuckets (stepAgg coords m2 row) k := by
  intro k
  by_cases hg : matchedGuardB row = false
  · rw [stepAgg_guard_false coords m1 hg, stepAgg_guard_false coords m2 hg]
    exact h k
  · have hg' : matchedGuardB row = true := by
      cases hb : matchedGuardB row
      · exact absurd hb hg
      · rfl
    cases hrs : row.routeSide with
    | none =>
      rw [projBuckets_stepAgg_side_none coords hrs m1 k,
        projBuckets_stepAgg_side_none coords hrs m2 k]
      exact h k
    | some side =>
      rw [projBuckets_stepAgg_side_some coords hg' hrs m1 k,
        projBuckets_stepAgg_side_some coords hg' hrs m2 k, h k]

theorem foldl_stepAgg_projBuckets_congr (coords : List (Str × (Option Rat × Option Rat)))
    (rows : List LiveMergedRow) :
    ∀ m1 m2 : List (Str × LiveRouteRoute), (∀ k, projBuckets m1 k = projBuckets m2 k) →
      ∀ k, projBuckets (rows.foldl (stepAgg coords) m1) k =
        projBuckets (rows.foldl (stepAgg coords) m2) k := by
  induction rows with
  | nil => intro m1 m2 h; exact h
  | cons row rest ih =>
    intro m1 m2 h
    exact ih (stepAgg coords m1 row) (stepAgg coords m2 row)
      (stepAgg_projBuckets_congr coords row h)

theorem stepAgg_WF (coords : List (Str × (Option Rat × Option Rat))) (row : LiveMergedRow)
    {m : List (Str × LiveRouteRoute)} (h : accWF m) : accWF (stepAgg coords m row) := by
  by_cases hg : matchedGuardB row = false
  · rw [stepAgg_guard_false coords m hg]; exact h
  · have hg' : matchedGuardB row = true := by
      cases hb : matchedGuardB row
      · exact absurd hb hg
      · rfl
    cases hex : lookupAssoc m (row.routeId.getD []) with
    | none =>
      cases hrs : row.routeSide with
      | none =>
        rw [stepAgg_none_none coords hg' hex hrs]
        intro p hp
        rcases List.mem_append.mp hp with hp | hp
        · exact h p hp
        · simp only [List.mem_singleton] at hp
          subst hp
          rfl
      | some side =>
        rw [stepAgg_none_side coords hg' hex hrs]
        intro p hp
        rcases mem_setAssoc hp with hp | ⟨hp, _⟩
        · subst hp
          simp only
          rw [backfill_id, pushSideEntry_id]
          rfl
        · rcases List.mem_append.mp hp with hp | hp
          · exact h p hp
          · simp only [List.mem_singleton] at hp
            subst hp
            rfl
    | some b =>
      cases hrs : row.routeSide with
      | none =>
        rw [stepAgg_some_none coords hg' hex hrs]
        exact h
      | some side =>
        rw [stepAgg_some_side coords hg' hex hrs]
        intro p hp
        rcases mem_setAssoc hp with hp | ⟨hp, _⟩
        · subst hp
          simp only
          rw [backfill_id, pushSideEntry_id]
          exact h (row.routeId.getD [], b) (lookupAssoc_mem hex)
        · exact h p hp

theorem foldl_stepAgg_WF (coords : List (Str × (Option Rat × Option Rat)))
    (rows : List LiveMergedRow) :
    ∀ m : List (Str × LiveRouteRoute), accWF m → accWF (rows.foldl (stepAgg coords) m) := by
  induction rows with
  | nil => intro m h; exact h
  | cons row rest ih =>
    intro m h
    exact ih (stepAgg coords m row) (stepAgg_WF coords row h)

theorem bucketsForId_eq_projBuckets {m : List (Str × LiveRouteRoute)} (h : accWF m) (k : Str) :
    bucketsForId (m.map (fun p => p.2)) k = projBuckets m k := by
  induction m with
  | nil => rfl
  | cons p rest ih =>
    have hid : p.2.id = p.1 := h p (List.mem_cons_self p rest)
    have hrest : accWF rest := fun q hq => h q (List.mem_cons_of_mem p hq)
    unfold bucketsForId projBuckets
    simp only [List.map_cons, List.find?_cons]
    rw [lookupAssoc_cons]
    by_cases hp : p.1 = k
    · rw [if_pos hp]
      rw [show (decide (p.2.id = k)) = true from by simp [hid, hp]]
    · rw [if_neg hp]
      rw [show (decide (p.2.id = k)) = false from by simp [hid, hp]]
      have := ih hrest
      unfold bucketsForId projBuckets at this
      exact this

/-- C7: in aggregation, a merged shipment whose matched route declares
    neither Up nor Down contributes to neither bucket: removing such a row
    from the input leaves every route id mapped to exactly the same
    (Up, Down) bucket pair - same VehicleEntry lists, same totalVehicles,
    same lateVehicles. -/
theorem c7_null_side_no_bucket_contribution
    (coords : List (Str × (Option Rat × Option Rat))) (xs ys : List LiveMergedRow)
    {row : LiveMergedRow} (hrs : row.routeSide = none) :
    ∀ k, bucketsForId (aggregateLiveRoutes (xs ++ row :: ys) coords) k =
      bucketsForId (aggregateLiveRoutes (xs ++ ys) coords) k := by
  intro k
  unfold aggregateLiveRoutes
  rw [List.foldl_append, List.foldl_append, List.foldl_cons]
  have hwf0 : accWF (xs.foldl (stepAgg coords) []) :=
    foldl_stepAgg_WF coords xs [] (by intro q hq; simp at hq)
  have hwf1 : accWF
      (ys.foldl (stepAgg coords) (stepAgg coords (xs.foldl (stepAgg coords) []) row)) :=
    foldl_stepAgg_WF coords ys _ (stepAgg_WF coords row hwf0)
  have hwf2 : accWF (ys.foldl (stepAgg coords) (xs.foldl (stepAgg coords) [])) :=
    foldl_stepAgg_WF coords ys _ hwf0
  rw [bucketsForId_eq_projBuckets hwf1 k, bucketsForId_eq_projBuckets hwf2 k]
  exact foldl_stepAgg_projBuckets_congr coords ys _ _
    (fun k2 => projBuckets_stepAgg_side_none coords hrs _ k2) k

theorem c7_null_side_no_bucket_contribution_witness :
    bucketsForId (aggregateLiveRoutes (mergedMatchedUp ++ rowNullSide :: []) []) (strLit ("R2")) =
      bucketsForId (aggregateLiveRoutes (mergedMatchedUp ++ []) []) (strLit ("R2")) :=
  c7_null_side_no_bucket_contribution [] mergedMatchedUp []
    (show rowNullSide.routeSide = none from by decide) (strLit ("R2"))

theorem pairKey_toPair (row : LiveMergedRow) :
    pairCompoundKey (toUnmatchedPair row) = rowCompoundKey row := rfl

theorem collectUnmatchedGo_sublist (rest : List LiveMergedRow) :
    ∀ seen : List Str, (collectUnmatchedGo seen rest).Sublist
      ((rest.filter (fun r => !jsTruthy r.routeId)).map toUnmatchedPair) := by
  induction rest with
  | nil => intro seen; simp [collectUnmatchedGo]
  | cons row rest ih =>
    intro seen
    by_cases ht : jsTruthy row.routeId
    · simp only [collectUnmatchedGo, if_pos ht, List.filter_cons, ht]
      simp only [Bool.not_true, if_neg (by simp : ¬(false = true))]
      exact ih seen
    · have ht' : jsTruthy row.routeId = false := by
        cases hb : jsTruthy row.routeId
        · rfl
        · exact absurd hb ht
      by_cases hk : rowCompoundKey row ∈ seen
      · simp only [collectUnmatchedGo, if_neg ht, if_pos hk, List.filter_cons, ht',
          Bool.not_false, if_pos rfl, List.map_cons]
        exact (ih seen).cons (toUnmatchedPair row)
      · simp only [collectUnmatchedGo, if_neg ht, if_neg hk, List.filter_cons, ht',
          Bool.not_false, if_pos rfl, List.map_cons]
        exact (ih (rowCompoundKey row :: seen)).cons₂ (toUnmatchedPair row)

theorem collectUnmatchedGo_nodup (rest : List LiveMergedRow) :
    ∀ seen : List Str,
      ((collectUnmatchedGo seen rest).map pairCompoundKey).Nodup ∧
      ∀ kk ∈ (collectUnmatchedGo seen rest).map pairCompoundKey, kk ∉ seen := by
  induction rest with
  | nil => intro seen; simp [collectUnmatchedGo]
  | cons row rest ih =>
    intro seen
    by_cases ht : jsTruthy row.routeId
    · simp only [collectUnmatchedGo, if_pos ht]
      exact ih seen
    · by_cases hk : rowCompoundKey row ∈ seen
      · simp only [collectUnmatchedGo, if_neg ht, if_pos hk]
        exact ih seen
      · simp only [collectUnmatchedGo, if_neg ht, if_neg hk, List.map_cons, pairKey_toPair]
        obtain ⟨ihn, ihs⟩ := ih (rowCompoundKey row :: seen)
        constructor
        · rw [List.nodup_cons]
          constructor
          · intro hmem
            exact ihs _ hmem (List.mem_cons_self _ _)
          · exact ihn
        · intro kk hkk
          rcases List.mem_cons.mp hkk with hkk | hkk
          · rw [hkk]; exact hk
          · intro hsenn
            exact ihs kk hkk (List.mem_cons_of_mem _ hsenn)

theorem collectUnmatchedGo_coverage (rest : List LiveMergedRow) :
    ∀ seen : List Str, ∀ r ∈ rest, jsTruthy r.routeId = false →
      rowCompoundKey r ∈ seen ∨
        ∃ p ∈ collectUnmatchedGo seen rest, pairCompoundKey p = rowCompoundKey r := by
  induction rest with
  | nil => intro seen r hr; simp at hr
  | cons row rest ih =>
    intro seen r hr hru
    by_cases ht : jsTruthy row.routeId
    · simp only [collectUnmatchedGo, if_pos ht]
      rcases List.mem_cons.mp hr with hr | hr
      · subst hr
        exact absurd ht (by simp [hru])
      · exact ih seen r hr hru
    · by_cases hk : rowCompoundKey row ∈ seen
      · simp only [collectUnmatchedGo, if_neg ht, if_pos hk]
        rcases List.mem_cons.mp hr with hr | hr
        · subst hr
          exact Or.inl hk
        · exact ih seen r hr hru
      · simp only [collectUnmatchedGo, if_neg ht, if_neg hk]
        rcases List.mem_cons.mp hr with hr | hr
        · subst hr
          exact Or.inr ⟨toUnmatchedPair r, List.mem_cons_self _ _, pairKey_toPair r⟩
        · rcases ih (rowCompoundKey row :: seen) r hr hru with hin | ⟨p, hp, hpe⟩
          · rcases List.mem_cons.mp hin with hin | hin
            · exact Or.inr ⟨toUnmatchedPair row, List.mem_cons_self _ _,
                (pairKey_toPair row).trans hin.symm⟩
            · exact Or.inl hin
          · exact Or.inr ⟨p, List.mem_cons_of_mem _ hp, hpe⟩

theorem collectUnmatchedGo_first (rest : List LiveMergedRow) :
    ∀ seen : List Str, ∀ p ∈ collectUnmatchedGo seen rest,
      pairCompoundKey p ∉ seen ∧
      ((rest.filter (fun r => !jsTruthy r.routeId)).find?
        (fun r => decide (rowCompoundKey r = pairCompoundKey p))).map toUnmatchedPair = some p := by
  induction rest with
  | nil => intro seen p hp; simp [collectUnmatchedGo] at hp
  | cons row rest ih =>
    intro seen p hp
    by_cases ht : jsTruthy row.routeId
    · simp only [collectUnmatchedGo, if_pos ht] at hp
      obtain ⟨hns, hfind⟩ := ih seen p hp
      refine ⟨hns, ?_⟩
      rw [List.filter_cons, if_neg (by simp [ht])]
      exact hfind
    · have ht' : jsTruthy row.routeId = false := by
        cases hb : jsTruthy row.routeId
        · rfl
        · exact absurd hb ht
      by_cases hk : rowCompoundKey row ∈ seen
      · simp only [collectUnmatchedGo, if_neg ht, if_pos hk] at hp
        obtain ⟨hns, hfind⟩ := ih seen p hp
        refine ⟨hns, ?_⟩
        rw [List.filter_cons, if_pos (by simp [ht']), List.find?_cons]
        rw [show (decide (rowCompoundKey row = pairCompoundKey p)) = false from by
          simp only [decide_eq_false_iff_not]
          intro h
          exact hns (h ▸ hk)]
        exact hfind
      · simp only [collectUnmatchedGo, if_neg ht, if_neg hk, List.mem_cons] at hp
        rcases hp with hp | hp
        · subst hp
          refine ⟨by rw [pairKey_toPair]; exact hk, ?_⟩
          rw [List.filter_cons, if_pos (by simp [ht']), List.find?_cons]
          rw [show (decide (rowCompoundKey row = pairCompoundKey (toUnmatchedPair row))) = true from by
            simp [pairKey_toPair]]
          rfl
        · obtain ⟨hns, hfind⟩ := ih (rowCompoundKey row :: seen) p hp
          have hnk : pairCompoundKey p ≠ rowCompoundKey row := by
            intro h
            exact hns (h ▸ List.mem_cons_self _ _)
          refine ⟨fun h => hns (List.mem_cons_of_mem _ h), ?_⟩
          rw [List.filter_cons, if_pos (by simp [ht']), List.find?_cons]
          rw [show (decide (rowCompoundKey row = pairCompoundKey p)) = false from by
            simp only [decide_eq_false_iff_not]
            exact fun h => hnk h.symm]
          exact hfind

/-- C10 counterexample: a merged row whose matched route id is the empty
    string is skipped by the aggregator guard and treated as unmatched by
    collectUnmatched (JS truthiness: "" is falsy), so a row with a matched
    route id can appear in the unmatched output. -/
theorem c10_empty_routeId_counterexample :
    (mergedEmptyId.map (fun r => r.routeId)) = [some (strLit (""))] ∧
    (collectUnmatched mergedEmptyId).length = 1 := by decide

/-- C10 amended: with "unmatched" meaning a missing or empty (falsy) route id
    - a row with a non-empty matched route id never appears - collectUnmatched
    contains exactly one entry per distinct compound key
    matchKey|consignerName|consigneeName among the unmatched rows, in stable
    input order (a sublist of the unmatched rows in order), and the kept entry
    is the first occurrence. -/
theorem c10_collectUnmatched_dedup (merged : List LiveMergedRow) :
    (collectUnmatched merged).Sublist
      ((merged.filter (fun r => !jsTruthy r.routeId)).map toUnmatchedPair) ∧
    ((collectUnmatched merged).map pairCompoundKey).Nodup ∧
    (∀ r ∈ merged, jsTruthy r.routeId = false →
      ∃ p ∈ collectUnmatched merged, pairCompoundKey p = rowCompoundKey r) ∧
    (∀ p ∈ collectUnmatched merged,
      ((merged.filter (fun r => !jsTruthy r.routeId)).find?
        (fun r => decide (rowCompoundKey r = pairCompoundKey p))).map toUnmatchedPair =
        some p) := by
  refine ⟨collectUnmatchedGo_sublist merged [], (collectUnmatchedGo_nodup merged []).1, ?_, ?_⟩
  · intro r hr hru
    rcases collectUnmatchedGo_coverage merged [] r hr hru with hin | h
    · simp at hin
    · exact h
  · intro p hp
    exact (collectUnmatchedGo_first merged [] p hp).2

theorem c10_collectUnmatched_dedup_witness :
    (∃ p ∈ collectUnmatched mergedC1,
      pairCompoundKey p = rowCompoundKey (mergedC1.headD rowNullSide)) ∧
    ((mergedC1.filter (fun r => !jsTruthy r.routeId)).find?
      (fun r => decide (rowCompoundKey r =
        pairCompoundKey ((collectUnmatched mergedC1).headD
          (toUnmatchedPair rowNullSide))))).map toUnmatchedPair =
      some ((collectUnmatched mergedC1).headD (toUnmatchedPair rowNullSide)) :=
  ⟨(c10_collectUnmatched_dedup mergedC1).2.2.1 (mergedC1.headD rowNullSide)
      (by decide) (by decide),
   (c10_collectUnmatched_dedup mergedC1).2.2.2
      ((collectUnmatched mergedC1).headD (toUnmatchedPair rowNullSide)) (by decide)⟩

/-- C9: coordinate precedence in per-shipment resolution: for every merged
    shipment with a non-null FMS (telemetry dropdown) city/landmark
    coordinate and a non-null stored route coordinate for the same endpoint,
    after attachLocationCoordsFromFms the shipment's resolved endpoint
    coordinate equals the FMS-derived one (source and destination alike). -/
theorem c9_fms_coordinate_precedence (merged : List LiveMergedRow) (loc : LocationMaps) :
    ∀ (i : Nat) (h1 : i < merged.length)
      (h2 : i < (attachLocationCoordsFromFms merged loc).length),
      (∀ p : Rat × Rat, fmsSourceCoord loc merged[i] = some p →
        merged[i].routeSourceLat ≠ none →
        (attachLocationCoordsFromFms merged loc)[i].routeSourceLat = some p.1 ∧
        (attachLocationCoordsFromFms merged loc)[i].routeSourceLng = some p.2) ∧
      (∀ p : Rat × Rat, fmsDestCoord loc merged[i] = some p →
        merged[i].routeDestinationLat ≠ none →
        (attachLocationCoordsFromFms merged loc)[i].routeDestinationLat = some p.1 ∧
        (attachLocationCoordsFromFms merged loc)[i].routeDestinationLng = some p.2) := by
  intro i h1 h2
  have hmap : (attachLocationCoordsFromFms merged loc)[i] = attachRowCoords loc merged[i] := by
    simp [attachLocationCoordsFromFms]
  constructor
  · intro p hfms hdb
    rw [hmap]
    unfold attachRowCoords
    rw [hfms]
    exact ⟨rfl, rfl⟩
  · intro p hfms hdb
    rw [hmap]
    unfold attachRowCoords
    rw [hfms]
    exact ⟨rfl, rfl⟩

theorem c9_fms_coordinate_precedence_witness :
    ((attachLocationCoordsFromFms [rowC9] locMapsC9).get
        ⟨0, by decide⟩).routeSourceLat = some (mkRat 10 1) ∧
    ((attachLocationCoordsFromFms [rowC9] locMapsC9).get
        ⟨0, by decide⟩).routeSourceLng = some (mkRat 20 1) :=
  (c9_fms_coordinate_precedence [rowC9] locMapsC9 0 (by decide) (by decide)).1
    (mkRat 10 1, mkRat 20 1) (by decide) (by decide)

/-- C4 counterexample: for the all-whitespace query " " and a candidate whose
    name is also " ", the candidate's name equals the query case-insensitively
    (tier 1 predicate true), yet findBestLocationMatch returns none because of
    its leading blank-query guard, so the claim fails as universally stated. -/
theorem c4_blank_query_counterexample :
    tier1Pred (jsToLowerCase (trimStr (strLit (" ")))) blankLocC4 = true ∧
    findBestLocationMatch (strLit (" ")) [blankLocC4] (mkRat 9 10) = none := by decide

/-- C4 amended: provided the query is non-blank (non-empty after trimming),
    if some candidate's name equals the query case-insensitively after
    trimming (tier 1), the first such candidate is returned, for every
    candidate list and threshold - in particular even when a different,
    non-identical candidate has a higher token-overlap (Jaccard) score in
    tier 4. -/
theorem c4_tier1_first_hit_wins (endpointName : Str) (locs : List LocationRow)
    (threshold : Rat) {c : LocationRow}
    (hq : trimStr endpointName ≠ [])
    (hfind : locs.find? (fun l => tier1Pred (jsToLowerCase (trimStr endpointName)) l) = some c) :
    findBestLocationMatch endpointName locs threshold = some c := by
  have hne : locs ≠ [] := by
    intro h
    subst h
    simp at hfind
  unfold findBestLocationMatch
  rw [if_neg (by simp [hq, hne])]
  simp only [hfind]

theorem c4_tier1_first_hit_wins_witness :
    findBestLocationMatch (strLit ("SAFEXPRESS DELHI")) [locDelhiExtra, locDelhiExact]
      (mkRat 9 10) = some locDelhiExact :=
  c4_tier1_first_hit_wins (strLit ("SAFEXPRESS DELHI")) [locDelhiExtra, locDelhiExact]
    (mkRat 9 10) (by decide) (by decide)

theorem tier4_foldl_lt {endpointName : Str} {threshold : Rat} (locs : List LocationRow)
    (hall : ∀ l ∈ locs, (computeLocationMatchScore endpointName l.name).score < threshold) :
    ∀ st : Option LocationRow × Rat × Bool, st.2.1 < threshold →
      (locs.foldl (tier4Step endpointName) st).2.1 < threshold := by
  induction locs with
  | nil => intro st hst; exact hst
  | cons loc rest ih =>
    intro st hst
    rw [List.foldl_cons]
    refine ih (fun l hl => hall l (List.mem_cons_of_mem loc hl)) _ ?_
    unfold tier4Step
    dsimp only
    split_ifs
    · exact hall loc (List.mem_cons_self loc rest)
    · exact hst

theorem computeLocationMatchScore_of_not_code {e c : Str}
    (hcond : ¬(extractCodeLower e ≠ [] ∧ extractCodeLower c ≠ [] ∧
      extractCodeLower e = extractCodeLower c)) :
    computeLocationMatchScore e c =
      { score := jaccardSimilarity (tokenizeNameWithoutCode e) (tokenizeNameWithoutCode c)
        byCode := false } := by
  unfold computeLocationMatchScore
  exact if_neg hcond

theorem computeLocationMatchScore_of_code {e c : Str}
    (hcond : extractCodeLower e ≠ [] ∧ extractCodeLower c ≠ [] ∧
      extractCodeLower e = extractCodeLower c) :
    computeLocationMatchScore e c = { score := 1, byCode := true } := by
  unfold computeLocationMatchScore
  exact if_pos hcond

theorem locationMatchScore_score_mk (a : Rat) (b : Bool) :
    LocationMatchScore.score { score := a, byCode := b } = a := rfl

theorem locationMatchScore_byCode_mk (a : Rat) (b : Bool) :
    LocationMatchScore.byCode { score := a, byCode := b } = b := rfl

/-- C5: findBestLocationMatch returns none (and is total) whenever no exact,
    space-insensitive-exact, or core-substring tier matches, no candidate
    shares the query's parenthetical code (no byCode score), and every
    candidate's Jaccard token-set score is strictly below the 0.9 threshold. -/
theorem c5_below_threshold_returns_none (endpointName : Str) (locs : List LocationRow)
    (h1 : ∀ l ∈ locs, tier1Pred (jsToLowerCase (trimStr endpointName)) l = false)
    (h2 : ∀ l ∈ locs,
      tier2Pred ((jsToLowerCase (trimStr endpointName)).filter (fun c => !isWsCode c)) l = false)
    (h3 : buildEndpointCoreKey endpointName ≠ [] →
      ∀ l ∈ locs, tier3Pred (buildEndpointCoreKey endpointName) l = false)
    (h4 : ∀ l ∈ locs, (computeLocationMatchScore endpointName l.name).byCode = false)
    (h5 : ∀ l ∈ locs,
      jaccardSimilarity (tokenizeNameWithoutCode endpointName)
        (tokenizeNameWithoutCode l.name) < mkRat 9 10) :
    findBestLocationMatch endpointName locs (mkRat 9 10) = none := by
  have hscore : ∀ l ∈ locs,
      (computeLocationMatchScore endpointName l.name).score < mkRat 9 10 := by
    intro l hl
    by_cases hcond : extractCodeLower endpointName ≠ [] ∧ extractCodeLower l.name ≠ [] ∧
        extractCodeLower endpointName = extractCodeLower l.name
    · have hb := h4 l hl
      have hb2 : (true : Bool) = false :=
        (locationMatchScore_byCode_mk 1 true).symm.trans
          ((congrArg LocationMatchScore.byCode
            (computeLocationMatchScore_of_code hcond)).symm.trans hb)
      exact absurd hb2 (by simp)
    · have hs : (computeLocationMatchScore endpointName l.name).score =
          jaccardSimilarity (tokenizeNameWithoutCode endpointName)
            (tokenizeNameWithoutCode l.name) :=
        (congrArg LocationMatchScore.score
          (computeLocationMatchScore_of_not_code hcond)).trans
          (locationMatchScore_score_mk _ _)
      rw [hs]
      exact h5 l hl
  by_cases hguard : trimStr endpointName = [] ∨ locs = []
  · unfold findBestLocationMatch
    rw [if_pos hguard]
  · unfold findBestLocationMatch
    rw [if_neg hguard]
    have hf1 : locs.find? (fun l => tier1Pred (jsToLowerCase (trimStr endpointName)) l) = none := by
      rw [List.find?_eq_none]
      intro l hl
      simp [h1 l hl]
    have hf2 : locs.find? (fun l =>
        tier2Pred ((jsToLowerCase (trimStr endpointName)).filter (fun c => !isWsCode c)) l) =
        none := by
      rw [List.find?_eq_none]
      intro l hl
      simp [h2 l hl]
    have hf3 : (if buildEndpointCoreKey endpointName = [] then none
        else locs.find? (fun l => tier3Pred (buildEndpointCoreKey endpointName) l)) = none := by
      by_cases hc : buildEndpointCoreKey endpointName = []
      · rw [if_pos hc]
      · rw [if_neg hc, List.find?_eq_none]
        intro l hl
        simp [h3 hc l hl]
    simp only [hf1, hf2, hf3]
    have hlt : (tier4Fold endpointName locs).2.1 < mkRat 9 10 :=
      tier4_foldl_lt locs hscore (none, 0, false) (by decide)
    cases hfold : tier4Fold endpointName locs with
    | mk fst snd =>
      cases fst with
      | none => rfl
      | some best =>
        cases snd with
        | mk bestScore bbc =>
          rw [hfold] at hlt
          have hlt2 : bestScore < mkRat 9 10 := hlt
          dsimp only
          rw [if_pos hlt2]

theorem c5_below_threshold_returns_none_witness :
    findBestLocationMatch (strLit ("DELHI SDS")) [locMumbai] (mkRat 9 10) = none :=
  c5_below_threshold_returns_none (strLit ("DELHI SDS")) [locMumbai]
    (by decide) (by decide) (by decide) (by decide) (by decide)
